/-
Verification of the interview_assistant backend against its specification.

The Python sources are shallowly embedded: Python floats become `ℚ`,
Python dicts with known keys become structures (optional keys become
`Option`), LLM / network calls become explicit parameters holding the
outcome of the call, and text becomes `List Char`.
-/
import Mathlib

/-! ## Python `round` (banker's rounding, half to even) -/

/-- Round a rational to the nearest integer, ties to even
(the behaviour of Python's built-in `round`). -/
def roundHalfEven (q : ℚ) : ℤ :=
  if q - ⌊q⌋ < 1/2 then ⌊q⌋
  else if 1/2 < q - ⌊q⌋ then ⌊q⌋ + 1
  else if 2 ∣ ⌊q⌋ then ⌊q⌋ else ⌊q⌋ + 1

/-- Model of Python `round(x, n)` on rationals. -/
def roundTo (n : ℕ) (x : ℚ) : ℚ :=
  (roundHalfEven (x * (10:ℚ)^n) : ℚ) / (10:ℚ)^n

theorem floor_le_roundHalfEven (q : ℚ) : ⌊q⌋ ≤ roundHalfEven q := by
  unfold roundHalfEven
  split_ifs <;> omega

theorem roundHalfEven_le_ceil (q : ℚ) : roundHalfEven q ≤ ⌈q⌉ := by
  unfold roundHalfEven
  have hf := Int.floor_le q
  split_ifs with h1 h2 h3 <;>
    first
      | exact Int.floor_le_ceil q
      | (rw [Int.add_one_le_iff, Int.lt_ceil]
         push_neg at h1
         linarith)

theorem roundTo_le {n : ℕ} {x y : ℚ} (hy : ∃ z : ℤ, (z:ℚ) = y * (10:ℚ)^n)
    (h : x ≤ y) : roundTo n x ≤ y := by
  obtain ⟨z, hz⟩ := hy
  have hpow : (0:ℚ) < (10:ℚ)^n := by positivity
  rw [roundTo, div_le_iff₀ hpow, ← hz]
  have h1 : x * (10:ℚ)^n ≤ (z:ℚ) := by
    rw [hz]; exact mul_le_mul_of_nonneg_right h (le_of_lt hpow)
  have h2 : roundHalfEven (x * (10:ℚ)^n) ≤ z := by
    calc roundHalfEven (x * (10:ℚ)^n) ≤ ⌈x * (10:ℚ)^n⌉ := roundHalfEven_le_ceil _
    _ ≤ z := Int.ceil_le.mpr h1
  exact_mod_cast h2

theorem le_roundTo {n : ℕ} {x y : ℚ} (hy : ∃ z : ℤ, (z:ℚ) = y * (10:ℚ)^n)
    (h : y ≤ x) : y ≤ roundTo n x := by
  obtain ⟨z, hz⟩ := hy
  have hpow : (0:ℚ) < (10:ℚ)^n := by positivity
  rw [roundTo, le_div_iff₀ hpow, ← hz]
  have h1 : (z:ℚ) ≤ x * (10:ℚ)^n := by
    rw [hz]; exact mul_le_mul_of_nonneg_right h (le_of_lt hpow)
  have h2 : z ≤ roundHalfEven (x * (10:ℚ)^n) := by
    calc z ≤ ⌊x * (10:ℚ)^n⌋ := Int.le_floor.mpr h1
    _ ≤ roundHalfEven (x * (10:ℚ)^n) := floor_le_roundHalfEven _
  exact_mod_cast h2

/-! ## Code correctness evaluator
(`backend/services/code_execution_service/correctness_evaluator.py`)

`CodeCorrectnessEvaluator._score_correctness` reads the keys `passed`,
`total_tests` and `errors` from the test-result dict and optionally blends
in the LLM approach assessment.  The outcome of `_assess_approach`
(an LLM call: the parsed `approach_score`, or `2.5` on any failure)
is passed in as the explicit parameter `approach`. -/

namespace correctness_evaluator

/-- Embedding of `CodeCorrectnessEvaluator._score_correctness`. -/
def score_correctness (passed total errors : ℕ) (approach : ℚ) : ℚ :=
  let pass_rate : ℚ := if 0 < total then (passed : ℚ) / (total : ℚ) else 0
  let base_score := pass_rate * 5
  if passed = total then 5.0
  else if 0 < errors ∨ (passed : ℚ) < (total : ℚ) * 0.5 then
    (base_score * 0.7) + (approach * 0.3)
  else base_score

/-- The scoring rule exactly as the claim words it: blending happens when
any test errored or *at least* 50% of the tests failed. -/
def spec_score_correctness (passed total errors : ℕ) (approach : ℚ) : ℚ :=
  let pass_rate : ℚ := if 0 < total then (passed : ℚ) / (total : ℚ) else 0
  if passed = total then 5.0
  else if 0 < errors ∨ (total : ℚ) * 0.5 ≤ ((total : ℚ) - (passed : ℚ)) then
    (pass_rate * 5 * 0.7) + (approach * 0.3)
  else pass_rate * 5

/-- The amended scoring rule: blending happens when any test errored or
*strictly more than* 50% of the tests failed. -/
def spec_score_correctness_amended (passed total errors : ℕ) (approach : ℚ) : ℚ :=
  let pass_rate : ℚ := if 0 < total then (passed : ℚ) / (total : ℚ) else 0
  if passed = total then 5.0
  else if 0 < errors ∨ (total : ℚ) * 0.5 < ((total : ℚ) - (passed : ℚ)) then
    (pass_rate * 5 * 0.7) + (approach * 0.3)
  else pass_rate * 5

end correctness_evaluator

/-- **C3** (counterexample): with 2 of 4 tests passing, no errors and an LLM
approach assessment of 5, exactly 50% of the tests failed, so the claim's
rule blends (giving 3.25) while the code returns the plain pass-rate score
2.5. -/
theorem C3_counterexample :
    correctness_evaluator.score_correctness 2 4 0 5 = 2.5 ∧
    correctness_evaluator.spec_score_correctness 2 4 0 5 = 3.25 := by
  constructor <;> norm_num [correctness_evaluator.score_correctness,
    correctness_evaluator.spec_score_correctness]

/-- **C3** (amended): `_score_correctness` returns 5.0 when every test
passed; blends `0.7 × (pass_rate × 5) + 0.3 × approach_score` when any test
errored or *strictly more than* 50% of the tests failed (equivalently, the
passed count is strictly below half the total); and otherwise returns
`pass_rate × 5`. -/
theorem C3_score_correctness_cases (passed total errors : ℕ) (approach : ℚ) :
    correctness_evaluator.score_correctness passed total errors approach =
      correctness_evaluator.spec_score_correctness_amended passed total errors approach := by
  unfold correctness_evaluator.score_correctness
    correctness_evaluator.spec_score_correctness_amended
  have hcond : (0 < errors ∨ (passed : ℚ) < (total : ℚ) * 0.5) =
      (0 < errors ∨ (total : ℚ) * 0.5 < ((total : ℚ) - (passed : ℚ))) := by
    apply propext
    exact or_congr Iff.rfl (by constructor <;> intro <;> linarith)
  simp only [hcond]

/-! ## Hallucination checker
(`backend/services/evaluation_service/hallucination_checker.py`)

`HallucinationChecker.check` extracts claims with one LLM call and verifies
each with another.  The extracted claims and the per-claim verification
outcomes are passed in explicitly: `claims` is what `_extract_claims`
returned, `verify` gives, for each claim, the `ClaimVerification` that
`_verify_claim` produced (whose status string comes from the LLM and may be
any string). -/

namespace hallucination_checker

structure ClaimVerification where
  claim : String
  verification_status : String
  confidence : ℚ
  explanation : String
  source : Option String := none

structure HallucinationCheckResult where
  total_claims : ℕ
  verified_claims : ℕ
  unverified_claims : ℕ
  false_claims : ℕ
  uncertain_claims : ℕ
  hallucination_score : ℚ
  flagged_claims : List ClaimVerification
  overall_assessment : String

/-- Embedding of `HallucinationChecker.check`. -/
def check (claims : List String) (verify : String → ClaimVerification) :
    HallucinationCheckResult :=
  if claims = [] then
    { total_claims := 0
      verified_claims := 0
      unverified_claims := 0
      false_claims := 0
      uncertain_claims := 0
      hallucination_score := 0.0
      flagged_claims := []
      overall_assessment := "No specific factual claims detected" }
  else
    let verifications := claims.map verify
    let verified := verifications.countP (fun v => v.verification_status == "verified")
    let unverified := verifications.countP (fun v => v.verification_status == "unverified")
    let false_count := verifications.countP (fun v => v.verification_status == "false")
    let uncertain := verifications.countP (fun v => v.verification_status == "uncertain")
    let total := verifications.length
    let hallucination_score : ℚ :=
      if 0 < total then
        ((false_count : ℚ) + ((uncertain : ℚ) * 0.5) + ((unverified : ℚ) * 0.25)) / (total : ℚ)
      else 0.0
    let flagged := verifications.filter
      (fun v => v.verification_status == "false" || v.verification_status == "uncertain")
    let assessment :=
      if hallucination_score < 0.1 then "Response appears factually accurate"
      else if hallucination_score < 0.3 then "Minor factual concerns detected"
      else if hallucination_score < 0.5 then "Several claims need verification"
      else "Significant factual issues detected"
    { total_claims := total
      verified_claims := verified
      unverified_claims := unverified
      false_claims := false_count
      uncertain_claims := uncertain
      hallucination_score := roundTo 2 hallucination_score
      flagged_claims := flagged
      overall_assessment := assessment }

/-- Three mutually exclusive Boolean predicates count at most the length. -/
theorem countP_three_le {α : Type} (p q r : α → Bool) (l : List α)
    (h : ∀ a ∈ l, ¬(p a = true ∧ q a = true) ∧ ¬(p a = true ∧ r a = true) ∧
      ¬(q a = true ∧ r a = true)) :
    l.countP p + l.countP q + l.countP r ≤ l.length := by
  induction l with
  | nil => simp
  | cons a l ih =>
    simp only [List.countP_cons, List.length_cons]
    have ha := h a (by simp)
    have hrest : l.countP p + l.countP q + l.countP r ≤ l.length :=
      ih (fun b hb => h b (by simp [hb]))
    rcases ha with ⟨h1, h2, h3⟩
    cases hp : p a <;> cases hq : q a <;> cases hr : r a <;> simp_all <;> omega

end hallucination_checker

/-- **C6**: the hallucination score of every `HallucinationChecker.check`
result is `(false + 0.5·uncertain + 0.25·unverified) / total` rounded to two
decimals when claims were extracted, exactly 0 when none were, and always
lies in `[0,1]`. -/
theorem C6_hallucination_score (claims : List String)
    (verify : String → hallucination_checker.ClaimVerification) :
    (0 ≤ (hallucination_checker.check claims verify).hallucination_score ∧
      (hallucination_checker.check claims verify).hallucination_score ≤ 1) ∧
    (claims = [] → (hallucination_checker.check claims verify).hallucination_score = 0) ∧
    (0 < (hallucination_checker.check claims verify).total_claims →
      (hallucination_checker.check claims verify).hallucination_score =
        roundTo 2 ((((hallucination_checker.check claims verify).false_claims : ℚ) +
          0.5 * ((hallucination_checker.check claims verify).uncertain_claims : ℚ) +
          0.25 * ((hallucination_checker.check claims verify).unverified_claims : ℚ)) /
          ((hallucination_checker.check claims verify).total_claims : ℚ))) := by
  by_cases hnil : claims = []
  · subst hnil
    refine ⟨⟨le_refl 0 |>.trans ?_, ?_⟩, fun _ => ?_, fun h => ?_⟩ <;>
      simp [hallucination_checker.check, roundTo, roundHalfEven] at * <;> norm_num
  · have hlen : 0 < (claims.map verify).length := by
      simpa [List.length_pos] using hnil
    set vs := claims.map verify with hvs
    set fc := vs.countP (fun v => v.verification_status == "false") with hfc
    set uc := vs.countP (fun v => v.verification_status == "uncertain") with huc
    set uv := vs.countP (fun v => v.verification_status == "unverified") with huv
    have hsum3 : fc + uc + uv ≤ vs.length := by
      apply hallucination_checker.countP_three_le
      intro a _
      refine ⟨?_, ?_, ?_⟩ <;> rintro ⟨hx, hy⟩ <;>
        simp only [beq_iff_eq] at hx hy <;> rw [hx] at hy <;> exact absurd hy (by decide)
    have hraw0 : (0:ℚ) ≤ ((fc : ℚ) + ((uc : ℚ) * 0.5) + ((uv : ℚ) * 0.25)) / (vs.length : ℚ) := by
      positivity
    have hraw1 : ((fc : ℚ) + ((uc : ℚ) * 0.5) + ((uv : ℚ) * 0.25)) / (vs.length : ℚ) ≤ 1 := by
      rw [div_le_one (by exact_mod_cast hlen)]
      have h1 : (fc : ℚ) + (uc : ℚ) + (uv : ℚ) ≤ (vs.length : ℚ) := by exact_mod_cast hsum3
      have h2 : (0:ℚ) ≤ (uc : ℚ) := by positivity
      have h3 : (0:ℚ) ≤ (uv : ℚ) := by positivity
      linarith
    have hcheck : hallucination_checker.check claims verify =
        { total_claims := vs.length
          verified_claims := vs.countP (fun v => v.verification_status == "verified")
          unverified_claims := uv
          false_claims := fc
          uncertain_claims := uc
          hallucination_score := roundTo 2
            (((fc : ℚ) + ((uc : ℚ) * 0.5) + ((uv : ℚ) * 0.25)) / (vs.length : ℚ))
          flagged_claims := vs.filter
            (fun v => v.verification_status == "false" || v.verification_status == "uncertain")
          overall_assessment :=
            if (((fc : ℚ) + ((uc : ℚ) * 0.5) + ((uv : ℚ) * 0.25)) / (vs.length : ℚ)) < 0.1 then
              "Response appears factually accurate"
            else if (((fc : ℚ) + ((uc : ℚ) * 0.5) + ((uv : ℚ) * 0.25)) / (vs.length : ℚ)) < 0.3 then
              "Minor factual concerns detected"
            else if (((fc : ℚ) + ((uc : ℚ) * 0.5) + ((uv : ℚ) * 0.25)) / (vs.length : ℚ)) < 0.5 then
              "Several claims need verification"
            else "Significant factual issues detected" } := by
      rw [hallucination_checker.check]
      simp only [if_neg hnil, ← hvs, ← hfc, ← huc, ← huv, if_pos hlen]
    refine ⟨⟨?_, ?_⟩, fun h => absurd h hnil, fun _ => ?_⟩
    · rw [hcheck]
      exact le_roundTo ⟨0, by norm_num⟩ hraw0
    · rw [hcheck]
      exact roundTo_le ⟨100, by norm_num⟩ hraw1
    · rw [hcheck]
      rw [mul_comm (0.5 : ℚ), mul_comm (0.25 : ℚ)]

/-- A concrete verifier marking every claim `false`, for the C6 witness. -/
def allFalseVerifier : String → hallucination_checker.ClaimVerification :=
  fun c => ⟨c, "false", 0.9, "wrong", none⟩

/-- **C6** witness: the theorem applied to one extracted claim verified as
`false`. -/
theorem C6_hallucination_score_witness :
    (0 < (hallucination_checker.check ["Python is compiled"] allFalseVerifier).total_claims) ∧
    (hallucination_checker.check ["Python is compiled"] allFalseVerifier).hallucination_score =
      roundTo 2
        ((((hallucination_checker.check ["Python is compiled"] allFalseVerifier).false_claims : ℚ) +
          0.5 * ((hallucination_checker.check ["Python is compiled"]
            allFalseVerifier).uncertain_claims : ℚ) +
          0.25 * ((hallucination_checker.check ["Python is compiled"]
            allFalseVerifier).unverified_claims : ℚ)) /
         ((hallucination_checker.check ["Python is compiled"] allFalseVerifier).total_claims : ℚ)) :=
  ⟨by decide, (C6_hallucination_score ["Python is compiled"] allFalseVerifier).2.2 (by decide)⟩

/-! ## Python text helpers

Python `str` values that undergo text processing are embedded as `List Char`. -/

/-- Text of a Python `str`. -/
abbrev Str := List Char

/-- ASCII whitespace, as stripped by Python's `str.strip`. -/
def pyIsSpace (c : Char) : Bool :=
  c == ' ' || c == '\t' || c == '\n' || c == '\r' || c == Char.ofNat 11 || c == Char.ofNat 12

/-- Python `str.strip()`. -/
def pyStrip (s : Str) : Str :=
  ((s.dropWhile pyIsSpace).reverse.dropWhile pyIsSpace).reverse

/-- Python `a or b` for an optional string: `b` when `a` is `None` or empty. -/
def pyOrStr (a : Option Str) (b : Str) : Str :=
  match a with
  | some s => if s.isEmpty then b else s
  | none => b

/-! ## Code executor
(`backend/services/code_execution_service/executor.py`)

`CodeExecutor.execute` performs a network call to Judge0; its outcome for
each test case is passed in as the explicit function `exec`.
`execute_with_test_cases` classifies every test into exactly one of
passed / failed / errors and aggregates. -/

namespace executor

structure ExecutionResult where
  status : String
  stdout : Option Str := none
  stderr : Option Str := none
  compile_output : Option Str := none
  exit_code : Option ℤ := none
  time : Option ℚ := none
  memory : Option ℤ := none
  token : Option String := none
  error_message : Option Str := none

structure TestCase where
  input : Str
  expected_output : Str
  description : Option Str := none
  is_hidden : Bool := false

structure TestResultEntry where
  test_case_index : ℕ
  description : Str
  is_hidden : Bool
  passed : Bool
  status : String
  expected_output : Str
  actual_output : Str
  error : Str
  time : ℚ
  memory : ℤ

/-- Accumulators of the `execute_with_test_cases` loop. -/
structure RunAcc where
  entries : List TestResultEntry
  passed : ℕ
  failed : ℕ
  errors : ℕ
  total_time : ℚ
  max_memory : ℤ

/-- Embedding of `CodeExecutor._outputs_match`. -/
def outputs_match (actual expected : Str) : Bool :=
  let norm := fun (s : Str) => ((s.splitOn '\n').map pyStrip).filter (fun l => !l.isEmpty)
  norm actual == norm expected

/-- One iteration of the test loop: whether the test passed, the (possibly
rewritten) status, and the increments of passed / failed / errors. -/
def classify (result_status : String) (matched : Bool) : Bool × String × ℕ × ℕ × ℕ :=
  if result_status = "accepted" then
    if matched then (true, result_status, 1, 0, 0)
    else (false, "wrong_answer", 0, 1, 0)
  else if result_status = "runtime_error" ∨ result_status = "compilation_error" ∨
      result_status = "internal_error" then
    (false, result_status, 0, 0, 1)
  else (false, result_status, 0, 1, 0)

/-- Python `f"Test case {i + 1}"`. -/
def defaultDescription (i : ℕ) : Str := "Test case ".data ++ (Nat.repr (i + 1)).data

/-- The `for i, test_case in enumerate(test_cases)` loop of
`CodeExecutor.execute_with_test_cases`, with `i` the index of the first
remaining test case. -/
def runTests (exec : TestCase → ExecutionResult) (i : ℕ) : List TestCase → RunAcc
  | [] => ⟨[], 0, 0, 0, 0, 0⟩
  | tc :: rest =>
    let acc := runTests exec (i + 1) rest
    let result := exec tc
    let actual_output := pyStrip (result.stdout.getD [])
    let expected_output := pyStrip tc.expected_output
    let c := classify result.status (outputs_match actual_output expected_output)
    let entry : TestResultEntry :=
      { test_case_index := i
        description := pyOrStr tc.description (defaultDescription i)
        is_hidden := tc.is_hidden
        passed := c.1
        status := c.2.1
        expected_output := if tc.is_hidden then "[Hidden]".data else expected_output
        actual_output := if tc.is_hidden then "[Hidden]".data else actual_output
        error := pyOrStr result.error_message []
        time := result.time.getD 0
        memory := result.memory.getD 0 }
    { entries := entry :: acc.entries
      passed := c.2.2.1 + acc.passed
      failed := c.2.2.2.1 + acc.failed
      errors := c.2.2.2.2 + acc.errors
      total_time := result.time.getD 0 + acc.total_time
      max_memory :=
        match result.memory with
        | some mem => max mem acc.max_memory
        | none => acc.max_memory }

structure TestRunSummary where
  total_tests : ℕ
  passed : ℕ
  failed : ℕ
  errors : ℕ
  pass_rate : ℚ
  total_time : ℚ
  max_memory : ℤ
  test_results : List TestResultEntry
  all_passed : Bool

/-- Embedding of `CodeExecutor.execute_with_test_cases`. -/
def execute_with_test_cases (exec : TestCase → ExecutionResult)
    (test_cases : List TestCase) : TestRunSummary :=
  let acc := runTests exec 0 test_cases
  let total := test_cases.length
  let pass_rate : ℚ := if 0 < total then ((acc.passed : ℚ) / (total : ℚ)) * 100 else 0
  { total_tests := total
    passed := acc.passed
    failed := acc.failed
    errors := acc.errors
    pass_rate := roundTo 2 pass_rate
    total_time := roundTo 3 acc.total_time
    max_memory := acc.max_memory
    test_results := acc.entries
    all_passed := acc.passed == total }

theorem classify_increments_one (s : String) (m : Bool) :
    (classify s m).2.2.1 + (classify s m).2.2.2.1 + (classify s m).2.2.2.2 = 1 := by
  unfold classify
  split_ifs <;> rfl

theorem runTests_counts (exec : TestCase → ExecutionResult) (i : ℕ) (l : List TestCase) :
    (runTests exec i l).passed + (runTests exec i l).failed + (runTests exec i l).errors
      = l.length := by
  induction l generalizing i with
  | nil => rfl
  | cons tc rest ih =>
    have h1 := classify_increments_one (exec tc).status
      (outputs_match (pyStrip ((exec tc).stdout.getD [])) (pyStrip tc.expected_output))
    have h2 := ih (i + 1)
    simp only [runTests, List.length_cons]
    omega

end executor

/-- **C10**: for every execution oracle and list of test cases, the aggregate
returned by `CodeExecutor.execute_with_test_cases` classifies each test into
exactly one bucket (`passed + failed + errors = total_tests`), `all_passed`
holds exactly when `passed = total_tests`, and `pass_rate` is
`passed / total_tests × 100` rounded to 2 decimals (0 with no test cases). -/
theorem C10_test_case_aggregate (exec : executor.TestCase → executor.ExecutionResult)
    (tcs : List executor.TestCase) :
    ((executor.execute_with_test_cases exec tcs).passed +
        (executor.execute_with_test_cases exec tcs).failed +
        (executor.execute_with_test_cases exec tcs).errors =
      (executor.execute_with_test_cases exec tcs).total_tests) ∧
    ((executor.execute_with_test_cases exec tcs).all_passed = true ↔
      (executor.execute_with_test_cases exec tcs).passed =
        (executor.execute_with_test_cases exec tcs).total_tests) ∧
    (0 < (executor.execute_with_test_cases exec tcs).total_tests →
      (executor.execute_with_test_cases exec tcs).pass_rate =
        roundTo 2 ((((executor.execute_with_test_cases exec tcs).passed : ℚ) /
          ((executor.execute_with_test_cases exec tcs).total_tests : ℚ)) * 100)) ∧
    ((executor.execute_with_test_cases exec tcs).total_tests = 0 →
      (executor.execute_with_test_cases exec tcs).pass_rate = 0) := by
  have hc := executor.runTests_counts exec 0 tcs
  unfold executor.execute_with_test_cases
  simp only []
  refine ⟨hc, ?_, ?_, ?_⟩
  · simp [beq_iff_eq]
  · intro h
    rw [if_pos h]
  · intro h
    rw [if_neg (by omega)]
    simp [roundTo, roundHalfEven]

/-- **C10** witness: the theorem applied to one concrete test case whose
execution was accepted. -/
theorem C10_test_case_aggregate_witness :
    (0 < (executor.execute_with_test_cases (fun _ => { status := "accepted" })
        [{ input := "1".data, expected_output := "1".data }]).total_tests) ∧
    (executor.execute_with_test_cases (fun _ => { status := "accepted" })
        [{ input := "1".data, expected_output := "1".data }]).pass_rate =
      roundTo 2 (((executor.execute_with_test_cases (fun _ => { status := "accepted" })
          [{ input := "1".data, expected_output := "1".data }]).passed : ℚ) /
        ((executor.execute_with_test_cases (fun _ => { status := "accepted" })
          [{ input := "1".data, expected_output := "1".data }]).total_tests : ℚ) * 100) :=
  ⟨by decide, (C10_test_case_aggregate (fun _ => { status := "accepted" })
      [{ input := "1".data, expected_output := "1".data }]).2.2.1 (by decide)⟩

/-! ## Session store
(`backend/services/speech_service/session_store.py`)

The store keeps an in-memory cache plus one JSON file per session; both are
modelled as partial maps from session id to record, a record being a partial
map from field name to value (value type `α`).  `datetime.utcnow().isoformat()`
is passed in as the explicit argument `now`. -/

namespace session_store

/-- A session record: a Python dict from field names to values. -/
def Record (α : Type) := String → Option α

/-- `data[key] = value`. -/
def setKey {α : Type} (r : Record α) (key : String) (v : α) : Record α :=
  fun k => if k = key then some v else r k

/-- The state of a `SessionStore`: the in-memory cache and the files on disk. -/
structure Store (α : Type) where
  cache : String → Option (Record α)
  files : String → Option (Record α)

/-- Embedding of `SessionStore.save_session` (the success path: the
`_updated_at` timestamp `now` is injected, then cache and file are updated). -/
def save_session {α : Type} (st : Store α) (session_id : String)
    (data : Record α) (now : α) : Store α :=
  let data' := setKey data "_updated_at" now
  { cache := fun id => if id = session_id then some data' else st.cache id
    files := fun id => if id = session_id then some data' else st.files id }

/-- Embedding of `SessionStore.get_session`: cache first, then file (which
also populates the cache). -/
def get_session {α : Type} (st : Store α) (session_id : String) :
    Option (Record α) × Store α :=
  match st.cache session_id with
  | some d => (some d, st)
  | none =>
    match st.files session_id with
    | some d =>
      (some d,
       { st with cache := fun id => if id = session_id then some d else st.cache id })
    | none => (none, st)

/-- Embedding of `SessionStore.delete_session` (the success path). -/
def delete_session {α : Type} (st : Store α) (session_id : String) : Store α :=
  { cache := fun id => if id = session_id then none else st.cache id
    files := fun id => if id = session_id then none else st.files id }

end session_store

/-- **C7**: saving a session and retrieving it by the same id returns a
record identical to the saved one on every field except the injected
`_updated_at`; deleting it and retrieving it returns `None`. -/
theorem C7_session_store_round_trip {α : Type} (st : session_store.Store α)
    (session_id : String) (data : session_store.Record α) (now : α) :
    (∃ d, (session_store.get_session
        (session_store.save_session st session_id data now) session_id).1 = some d ∧
      (∀ k, k ≠ "_updated_at" → d k = data k) ∧
      d "_updated_at" = some now) ∧
    (session_store.get_session
      (session_store.delete_session
        (session_store.save_session st session_id data now) session_id) session_id).1 = none := by
  constructor
  · refine ⟨session_store.setKey data "_updated_at" now, ?_, ?_, ?_⟩
    · simp [session_store.get_session, session_store.save_session]
    · intro k hk
      simp [session_store.setKey, hk]
    · simp [session_store.setKey]
  · simp [session_store.get_session, session_store.delete_session]

/-! ## Question generator
(`backend/services/question_service/generator.py`)

`QuestionGenerator.generate` calls the LLM and parses its completion; the
outcome of that pipeline is passed in as a `GenOutcome`: the call raised, no
`{...}` was found in the completion, the found JSON would not parse even
after the trailing-comma fixes, or a parsed response object.  The fresh
`uuid4` hex used for defaulted question ids is the explicit `uuidHex`. -/

namespace generator

inductive InterviewType
  | oa | technical | system_design | behavioral | mixed
deriving DecidableEq

inductive DifficultyLevel
  | easy | medium | hard | adaptive
deriving DecidableEq

/-- `InterviewType(...).value`. -/
def typeValue : InterviewType → String
  | .oa => "oa"
  | .technical => "technical"
  | .system_design => "system_design"
  | .behavioral => "behavioral"
  | .mixed => "mixed"

/-- `InterviewType(s)`, `None` for the `ValueError` case. -/
def interviewTypeOfString : String → Option InterviewType
  | "oa" => some .oa
  | "technical" => some .technical
  | "system_design" => some .system_design
  | "behavioral" => some .behavioral
  | "mixed" => some .mixed
  | _ => none

/-- `DifficultyLevel(s)`, `None` for the `ValueError` case. -/
def difficultyOfString : String → Option DifficultyLevel
  | "easy" => some .easy
  | "medium" => some .medium
  | "hard" => some .hard
  | "adaptive" => some .adaptive
  | _ => none

structure GeneratedQuestion where
  id : String
  question : String
  interview_type : InterviewType
  difficulty : DifficultyLevel
  skill_tags : List String
  expected_duration_mins : ℕ
  evaluation_criteria : List String
  sample_answer_points : Option (List String) := none
  test_cases : Option (List executor.TestCase) := none
  starter_code : Option (List (String × String)) := none

structure QuestionRequest where
  job_description : String
  interview_type : InterviewType
  difficulty : DifficultyLevel := .medium
  num_questions : ℕ := 5
  focus_skills : Option (List String) := none

/-- One entry of the `questions` array of the parsed LLM JSON
(each key may be absent). -/
structure RawQuestion where
  id : Option String := none
  question : Option String := none
  interview_type : Option String := none
  difficulty : Option String := none
  skill_tags : Option (List String) := none
  expected_duration_mins : Option ℕ := none
  evaluation_criteria : Option (List String) := none
  sample_answer_points : Option (List String) := none

/-- The parsed LLM JSON object (`response.get("questions", [])`). -/
structure ParsedResponse where
  questions : List RawQuestion := []

/-- The `for i, q in enumerate(raw_questions)` loop of
`QuestionGenerator._parse_response`, starting at index `i`. -/
def parse_response_aux (uuidHex : ℕ → String) (interview_type : InterviewType)
    (difficulty : DifficultyLevel) (i : ℕ) :
    List RawQuestion → List GeneratedQuestion
  | [] => []
  | q :: rest =>
    let q_id := q.id.getD (typeValue interview_type ++ "_" ++ uuidHex i)
    let q_type := match q.interview_type with
      | some s => (interviewTypeOfString s).getD interview_type
      | none => interview_type
    let q_diff := match q.difficulty with
      | some s => (difficultyOfString s).getD difficulty
      | none => difficulty
    let question : GeneratedQuestion :=
      { id := q_id
        question := q.question.getD ""
        interview_type := q_type
        difficulty := q_diff
        skill_tags := q.skill_tags.getD []
        expected_duration_mins := q.expected_duration_mins.getD 15
        evaluation_criteria := q.evaluation_criteria.getD []
        sample_answer_points := some (q.sample_answer_points.getD []) }
    (if question.question ≠ "" then [question] else []) ++
      parse_response_aux uuidHex interview_type difficulty (i + 1) rest

/-- Embedding of `QuestionGenerator._parse_response`. -/
def parse_response (uuidHex : ℕ → String) (resp : ParsedResponse)
    (interview_type : InterviewType) (difficulty : DifficultyLevel) :
    List GeneratedQuestion :=
  parse_response_aux uuidHex interview_type difficulty 0 resp.questions

/-- The fixed `oa` fallback question. -/
def fallback_oa : GeneratedQuestion :=
  { id := "fallback_oa_1"
    question := "Given an array of integers, find two numbers that add up to a target sum. Return their indices."
    interview_type := .oa
    difficulty := .medium
    skill_tags := ["array", "hash-map"]
    expected_duration_mins := 20
    evaluation_criteria := ["correctness", "time_complexity", "edge_cases"]
    sample_answer_points := some ["Use hash map for O(n) solution", "Handle duplicates", "Consider empty array"] }

/-- The fixed `technical` fallback question. -/
def fallback_technical : GeneratedQuestion :=
  { id := "fallback_tech_1"
    question := "Explain the difference between a process and a thread. When would you use one over the other?"
    interview_type := .technical
    difficulty := .medium
    skill_tags := ["operating-systems", "concurrency"]
    expected_duration_mins := 10
    evaluation_criteria := ["conceptual_clarity", "practical_examples", "trade_offs"]
    sample_answer_points := some ["Memory isolation", "Context switching cost", "Use cases for each"] }

/-- The fixed `system_design` fallback question. -/
def fallback_system_design : GeneratedQuestion :=
  { id := "fallback_sd_1"
    question := "Design a URL shortening service like bit.ly. Consider scalability, uniqueness, and analytics."
    interview_type := .system_design
    difficulty := .medium
    skill_tags := ["system-design", "distributed-systems", "database"]
    expected_duration_mins := 45
    evaluation_criteria := ["requirements", "high_level_design", "scalability", "trade_offs"]
    sample_answer_points := some ["Base62 encoding", "Database choice", "Caching strategy", "Analytics pipeline"] }

/-- The fixed `behavioral` fallback question. -/
def fallback_behavioral : GeneratedQuestion :=
  { id := "fallback_beh_1"
    question := "Tell me about a time when you had to deal with a difficult team member. How did you handle it?"
    interview_type := .behavioral
    difficulty := .medium
    skill_tags := ["teamwork", "conflict-resolution"]
    expected_duration_mins := 10
    evaluation_criteria := ["situation_clarity", "action_ownership", "result", "learning"]
    sample_answer_points := some ["Specific situation", "Direct communication", "Positive outcome", "Lesson learned"] }

/-- Embedding of `QuestionGenerator._get_fallback_questions` (the `fallback`
dict with `fallback[MIXED] = fallback[TECHNICAL]`, looked up at the
requested type). -/
def get_fallback_questions (request : QuestionRequest) : List GeneratedQuestion :=
  let base := match request.interview_type with
    | .oa => fallback_oa
    | .technical => fallback_technical
    | .system_design => fallback_system_design
    | .behavioral => fallback_behavioral
    | .mixed => fallback_technical
  [base]

/-- Outcome of the LLM call + JSON location + JSON parse pipeline inside
`QuestionGenerator.generate`. -/
inductive GenOutcome
  | raised
  | noJson
  | badJson
  | parsed (resp : ParsedResponse)

/-- Embedding of `QuestionGenerator.generate` after the prompt has been
built: every failure of the pipeline falls back, as does an empty parse. -/
def generate (uuidHex : ℕ → String) (request : QuestionRequest)
    (outcome : GenOutcome) : List GeneratedQuestion :=
  match outcome with
  | .raised => get_fallback_questions request
  | .noJson => get_fallback_questions request
  | .badJson => get_fallback_questions request
  | .parsed resp =>
    let questions := parse_response uuidHex resp request.interview_type request.difficulty
    if questions.isEmpty then get_fallback_questions request else questions

end generator

/-- **C4**: whenever the LLM call raises, no JSON object is found, or zero
valid questions are parsed, `generate` returns exactly one question from the
fixed fallback table: the one matching the requested interview type, with
the technical fallback used for `mixed` — never an empty list. -/
theorem C4_fallback_invariant (uuidHex : ℕ → String)
    (request : generator.QuestionRequest) (outcome : generator.GenOutcome)
    (h : outcome = .raised ∨ outcome = .noJson ∨
      ∃ resp, outcome = .parsed resp ∧
        generator.parse_response uuidHex resp request.interview_type request.difficulty = []) :
    ∃ q, generator.generate uuidHex request outcome = [q] ∧
      q ∈ [generator.fallback_oa, generator.fallback_technical,
        generator.fallback_system_design, generator.fallback_behavioral] ∧
      (request.interview_type ≠ .mixed → q.interview_type = request.interview_type) ∧
      (request.interview_type = .mixed → q = generator.fallback_technical) := by
  have hfb : generator.generate uuidHex request outcome =
      generator.get_fallback_questions request := by
    rcases h with h | h | ⟨resp, h, hparse⟩
    · subst h; rfl
    · subst h; rfl
    · subst h; simp [generator.generate, hparse]
  rw [hfb]
  cases htype : request.interview_type <;>
    simp [generator.get_fallback_questions, htype, generator.fallback_oa,
      generator.fallback_technical, generator.fallback_system_design,
      generator.fallback_behavioral]

/-- **C4** witness: the invariant at a concrete technical-interview request
whose LLM call raised. -/
theorem C4_fallback_invariant_witness :
    ∃ q, generator.generate (fun _ => "deadbeef")
        { job_description := "Backend role", interview_type := .technical } .raised = [q] ∧
      q ∈ [generator.fallback_oa, generator.fallback_technical,
        generator.fallback_system_design, generator.fallback_behavioral] ∧
      (generator.InterviewType.technical ≠ generator.InterviewType.mixed →
        q.interview_type = .technical) ∧
      (generator.InterviewType.technical = generator.InterviewType.mixed →
        q = generator.fallback_technical) :=
  C4_fallback_invariant (fun _ => "deadbeef")
    { job_description := "Backend role", interview_type := .technical } .raised (Or.inl rfl)

/-! ## LLM client JSON extraction
(`backend/utils/llm_client.py`)

`json.loads` is modelled by a recursive-descent JSON parser over `Str`
(`loads`): JSON numbers are modelled in their integral fragment and string
escapes `\x` are modelled as the escaped character itself, which is all the
structure `generate_json` depends on.  The parser is fuelled; fuel
`2·length + 8` always suffices because every fuelled step first consumes at
least one input character. -/

namespace llm_client

/-- JSON values. -/
inductive JValue
  | null
  | bool (b : Bool)
  | num (n : ℤ)
  | str (s : Str)
  | arr (elems : List JValue)
  | obj (fields : List (Str × JValue))

/-- JSON insignificant whitespace. -/
def jsonWs (c : Char) : Bool :=
  c == ' ' || c == '\t' || c == '\n' || c == '\r'

/-- Digits of a number already begun, accumulating into `acc`. -/
def parseDigits : Str → ℕ → ℕ × Str
  | [], acc => (acc, [])
  | c :: rest, acc =>
    if c.isDigit then parseDigits rest (acc * 10 + (c.toNat - 48))
    else (acc, c :: rest)

/-- A natural number: at least one digit. -/
def parseNat : Str → Option (ℕ × Str)
  | [] => none
  | c :: rest =>
    if c.isDigit then some (parseDigits rest (c.toNat - 48)) else none

/-- The body of a JSON string after the opening quote. -/
def parseStringBody : Str → Option (Str × Str)
  | [] => none
  | '"' :: rest => some ([], rest)
  | '\\' :: c :: rest => (parseStringBody rest).map (fun p => (c :: p.1, p.2))
  | c :: rest => (parseStringBody rest).map (fun p => (c :: p.1, p.2))

mutual

/-- One JSON value (with leading whitespace), returning the rest. -/
def parseValue : ℕ → Str → Option (JValue × Str)
  | 0, _ => none
  | fuel + 1, s =>
    match s.dropWhile jsonWs with
    | 'n' :: 'u' :: 'l' :: 'l' :: rest => some (.null, rest)
    | 't' :: 'r' :: 'u' :: 'e' :: rest => some (.bool true, rest)
    | 'f' :: 'a' :: 'l' :: 's' :: 'e' :: rest => some (.bool false, rest)
    | '"' :: rest => (parseStringBody rest).map (fun p => (.str p.1, p.2))
    | '[' :: rest =>
      (match rest.dropWhile jsonWs with
       | ']' :: r2 => some (.arr [], r2)
       | r1 => (parseItems fuel r1).map (fun p => (.arr p.1, p.2)))
    | '{' :: rest =>
      (match rest.dropWhile jsonWs with
       | '}' :: r2 => some (.obj [], r2)
       | r1 => (parseMembers fuel r1).map (fun p => (.obj p.1, p.2)))
    | '-' :: rest => (parseNat rest).map (fun p => (.num (-(p.1 : ℤ)), p.2))
    | c :: rest =>
      if c.isDigit then (parseNat (c :: rest)).map (fun p => (.num (p.1 : ℤ), p.2))
      else none
    | [] => none

/-- Array items after the first has begun; a `]` here was already ruled out. -/
def parseItems : ℕ → Str → Option (List JValue × Str)
  | 0, _ => none
  | fuel + 1, s =>
    match parseValue fuel s with
    | none => none
    | some (v, r) =>
      match r.dropWhile jsonWs with
      | ',' :: r2 => (parseItems fuel r2).map (fun p => (v :: p.1, p.2))
      | ']' :: r2 => some ([v], r2)
      | _ => none

/-- Object members after the first has begun; a `}` here was already ruled out. -/
def parseMembers : ℕ → Str → Option (List (Str × JValue) × Str)
  | 0, _ => none
  | fuel + 1, s =>
    match s.dropWhile jsonWs with
    | '"' :: rest =>
      (match parseStringBody rest with
       | none => none
       | some (key, r1) =>
         match r1.dropWhile jsonWs with
         | ':' :: r2 =>
           (match parseValue fuel r2 with
            | none => none
            | some (v, r3) =>
              match r3.dropWhile jsonWs with
              | ',' :: r4 => (parseMembers fuel r4).map (fun p => ((key, v) :: p.1, p.2))
              | '}' :: r4 => some ([(key, v)], r4)
              | _ => none)
         | _ => none)
    | _ => none

end

/-- Model of strict `json.loads`: a single JSON value followed only by
whitespace. -/
def loads (s : Str) : Option JValue :=
  match parseValue (2 * s.length + 8) s with
  | some (v, rest) => if (rest.dropWhile jsonWs).isEmpty then some v else none
  | none => none

/-- The prefix of `s` up to and including the *last* occurrence of `c`. -/
def takeToLast (c : Char) : Str → Option Str
  | [] => none
  | a :: rest =>
    match takeToLast c rest with
    | some t => some (a :: t)
    | none => if a = c then some [a] else none

/-- Model of `re.search` with the greedy pattern `o[\s\S]*c` (for
`r'\{[\s\S]*\}'` and `r'\[[\s\S]*\]'`): the substring running from the
first `o` to the last `c`, when the latter is after the former. -/
def spanFirstToLast (o c : Char) : Str → Option Str
  | [] => none
  | x :: rest =>
    if x = o then (takeToLast c rest).map (x :: ·)
    else spanFirstToLast o c rest

/-- Embedding of `OllamaClient._extract_json` (`none` models the
`ValueError` raise). -/
def extract_json (text : Str) : Option JValue :=
  match (spanFirstToLast '{' '}' text).bind loads with
  | some v => some v
  | none => (spanFirstToLast '[' ']' text).bind loads

/-- Embedding of `OllamaClient.generate_json` applied to the completion
`response` returned by the model (`none` models the raised error). -/
def generate_json (response : Str) : Option JValue :=
  match loads response with
  | some v => some v
  | none => extract_json response

/-- The balanced tail: characters up to the point where `depth` nested
`o…c` groups have been closed. -/
def balancedTail (o c : Char) : Str → ℕ → Option Str
  | [], _ => none
  | x :: rest, depth =>
    if x = o then (balancedTail o c rest (depth + 1)).map (x :: ·)
    else if x = c then
      if depth = 1 then some [x]
      else (balancedTail o c rest (depth - 1)).map (x :: ·)
    else (balancedTail o c rest depth).map (x :: ·)

/-- The first *balanced* `o…c` substring, per the claim's reading of the
extraction step. -/
def firstBalanced (o c : Char) : Str → Option Str
  | [] => none
  | x :: rest =>
    if x = o then (balancedTail o c rest 1).map (x :: ·)
    else firstBalanced o c rest

/-- `generate_json` exactly as the claim words it: strict parse, then the
first *balanced* `{...}` or `[...]` substring, then a data-format error. -/
def spec_generate_json (response : Str) : Option JValue :=
  match loads response with
  | some v => some v
  | none =>
    match (firstBalanced '{' '}' response).bind loads with
    | some v => some v
    | none => (firstBalanced '[' ']' response).bind loads

theorem takeToLast_eq_none {c : Char} {s : Str} (h : takeToLast c s = none) :
    ∀ x ∈ s, x ≠ c := by
  induction s with
  | nil => simp
  | cons a rest ih =>
    intro x hx
    rw [takeToLast] at h
    rcases hmatch : takeToLast c rest with _ | t
    · rw [hmatch] at h
      rcases List.mem_cons.mp hx with rfl | hx'
      · intro hac
        rw [if_pos hac] at h
        simp at h
      · exact ih hmatch x hx'
    · rw [hmatch] at h; simp at h

theorem takeToLast_spec {c : Char} {s t : Str} (h : takeToLast c s = some t) :
    ∃ mid post, t = mid ++ [c] ∧ s = mid ++ [c] ++ post ∧ ∀ x ∈ post, x ≠ c := by
  induction s generalizing t with
  | nil => simp [takeToLast] at h
  | cons a rest ih =>
    rw [takeToLast] at h
    rcases hmatch : takeToLast c rest with _ | t'
    · rw [hmatch] at h
      by_cases hac : a = c
      · rw [if_pos hac] at h
        refine ⟨[], rest, ?_, ?_, takeToLast_eq_none hmatch⟩
        · simpa [hac] using h.symm
        · simp [hac]
      · rw [if_neg hac] at h; simp at h
    · rw [hmatch] at h
      have h' : a :: t' = t := by simpa using h
      obtain ⟨mid, post, ht', hrest, hpost⟩ := ih hmatch
      refine ⟨a :: mid, post, ?_, ?_, hpost⟩
      · rw [← h', ht']; simp
      · simp [hrest]

theorem spanFirstToLast_spec {o c : Char} {s sub : Str}
    (h : spanFirstToLast o c s = some sub) :
    ∃ pre mid post, s = pre ++ sub ++ post ∧ sub = o :: (mid ++ [c]) ∧
      (∀ x ∈ pre, x ≠ o) ∧ (∀ x ∈ post, x ≠ c) := by
  induction s generalizing sub with
  | nil => simp [spanFirstToLast] at h
  | cons a rest ih =>
    rw [spanFirstToLast] at h
    by_cases hao : a = o
    · rw [if_pos hao] at h
      rcases hmatch : takeToLast c rest with _ | t
      · rw [hmatch] at h; simp at h
      · rw [hmatch] at h
        have h' : a :: t = sub := by simpa using h
        obtain ⟨mid, post, ht, hrest, hpost⟩ := takeToLast_spec hmatch
        refine ⟨[], mid, post, ?_, ?_, by simp, hpost⟩
        · rw [← h']; simp [hrest, ht]
        · rw [← h', hao, ht]
    · rw [if_neg hao] at h
      obtain ⟨pre, mid, post, hs, hsub, hpre, hpost⟩ := ih h
      exact ⟨a :: pre, mid, post, by simp [hs], hsub,
        by simpa [hao] using hpre, hpost⟩

end llm_client

/-- **C8** (counterexample): for the completion `{"a": 1} {"b": 2}` strict
parsing fails; the first *balanced* `{...}` substring is `{"a": 1}`, which
parses, so the claim's procedure returns a value — but the code's greedy
regex takes the span from the first `{` to the last `}` (the whole text),
fails to parse it, and raises a data-format error. -/
theorem C8_counterexample :
    llm_client.generate_json ("\x7b\"a\": 1\x7d \x7b\"b\": 2\x7d".data) = none ∧
    llm_client.spec_generate_json ("\x7b\"a\": 1\x7d \x7b\"b\": 2\x7d".data) =
      some (.obj [("a".data, .num 1)]) := by
  constructor <;> rfl

/-- **C8** (amended): `generate_json` first attempts strict parsing of the
whole completion; when that fails it takes the *greedy* span running from
the first `{` to the last `}` (resp. from the first `[` to the last `]`,
tried second) and strictly parses it; and when those fail the call fails
with a data-format error rather than returning a value. -/
theorem C8_generate_json_strategy (text : Str) :
    (∀ v, llm_client.loads text = some v → llm_client.generate_json text = some v) ∧
    (llm_client.loads text = none →
      llm_client.generate_json text =
        match (llm_client.spanFirstToLast '{' '}' text).bind llm_client.loads with
        | some v => some v
        | none => (llm_client.spanFirstToLast '[' ']' text).bind llm_client.loads) ∧
    (∀ sub, llm_client.spanFirstToLast '{' '}' text = some sub →
      ∃ pre mid post, text = pre ++ sub ++ post ∧ sub = '{' :: (mid ++ ['}']) ∧
        (∀ x ∈ pre, x ≠ '{') ∧ (∀ x ∈ post, x ≠ '}')) ∧
    (∀ sub, llm_client.spanFirstToLast '[' ']' text = some sub →
      ∃ pre mid post, text = pre ++ sub ++ post ∧ sub = '[' :: (mid ++ [']']) ∧
        (∀ x ∈ pre, x ≠ '[') ∧ (∀ x ∈ post, x ≠ ']')) := by
  refine ⟨fun v hv => ?_, fun hnone => ?_, fun sub hsub => ?_, fun sub hsub => ?_⟩
  · simp [llm_client.generate_json, hv]
  · simp [llm_client.generate_json, hnone, llm_client.extract_json]
  · exact llm_client.spanFirstToLast_spec hsub
  · exact llm_client.spanFirstToLast_spec hsub

/-- **C8** witness: the amended strategy at the concrete completion
`x {"k": true}`: strict parsing fails there, and the greedy span is the
parsable `{"k": true}`. -/
theorem C8_generate_json_strategy_witness :
    llm_client.loads ("x \x7b\"k\": true\x7d".data) = none ∧
    llm_client.generate_json ("x \x7b\"k\": true\x7d".data) =
      match (llm_client.spanFirstToLast '{' '}' ("x \x7b\"k\": true\x7d".data)).bind
          llm_client.loads with
      | some v => some v
      | none => (llm_client.spanFirstToLast '[' ']' ("x \x7b\"k\": true\x7d".data)).bind
          llm_client.loads :=
  ⟨rfl, (C8_generate_json_strategy ("x \x7b\"k\": true\x7d".data)).2.1 rfl⟩

/-! ## Skill parser
(`backend/services/question_service/skill_parser.py`)

The three extraction sources (regex patterns, spaCy, LLM) are passed in as
explicit lists of skill dicts; `parse` merges them, scores importance and
sorts.  Python's stable `list.sort(key=..., reverse=True)` is modelled by
`List.insertionSort` under the reflexive descending-importance relation,
which is likewise a stable descending sort. -/

/-- Python `str.lower()` (character-wise). -/
def pyLower (s : Str) : Str := s.map Char.toLower

/-- Python `str.count(sub)`: non-overlapping occurrences, scanning left to
right (for the sub-part that remains after a match begins). -/
def countOccAux (p : Str) : Str → ℕ
  | [] => 0
  | c :: rest =>
    if p.isPrefixOf (c :: rest) then 1 + countOccAux p (rest.drop (p.length - 1))
    else countOccAux p rest
termination_by s => s.length
decreasing_by
  · simp only [List.length_drop, List.length_cons]; omega
  · simp only [List.length_cons]; omega

/-- Python `str.count(sub)` (`len + 1` for the empty pattern). -/
def countOcc (p s : Str) : ℕ :=
  if p.isEmpty then s.length + 1 else countOccAux p s

/-- Python `str.find(sub)`: index of the first occurrence (`none` for -1). -/
def findSub (p : Str) : Str → Option ℕ
  | [] => if p.isEmpty then some 0 else none
  | c :: rest => if p.isPrefixOf (c :: rest) then some 0 else (findSub p rest).map (· + 1)

namespace skill_parsing

inductive SkillCategory
  | programming | data_structures | algorithms | system_design
  | database | cloud | soft_skills
deriving DecidableEq

/-- A skill dict as built by one of the extraction steps
(`keywords` is only set by the LLM source). -/
structure SkillDict where
  skill : Str
  category : SkillCategory
  keywords : Option (List Str) := none
  source : String

structure SkillTag where
  skill : Str
  category : SkillCategory
  importance : ℚ
  keywords : List Str

/-- The loop of `SkillParser._merge_skills` carrying the `seen` set. -/
def merge_aux (seen : List Str) : List SkillDict → List SkillDict
  | [] => []
  | d :: rest =>
    let skill_lower := pyStrip (pyLower d.skill)
    if skill_lower ≠ [] ∧ skill_lower ∉ seen then
      d :: merge_aux (skill_lower :: seen) rest
    else merge_aux seen rest

/-- Embedding of `SkillParser._merge_skills`. -/
def merge_skills (skill_lists : List (List SkillDict)) : List SkillDict :=
  merge_aux [] skill_lists.flatten

/-- Embedding of `SkillParser._score_skills`. -/
def score_skills (skills : List SkillDict) (job_description : Str) : List SkillTag :=
  let text_lower := pyLower job_description
  let text_length := text_lower.length
  skills.map (fun skill =>
    let skill_name := pyLower skill.skill
    let count := countOcc skill_name text_lower
    let freq_score : ℚ := min ((count : ℚ) / 5) 1.0
    let pos_score : ℚ :=
      match findSub skill_name text_lower with
      | some first_pos => 1 - ((first_pos : ℚ) / (text_length : ℚ))
      | none => 0.5
    let importance := (freq_score * 0.6) + (pos_score * 0.4)
    { skill := skill.skill
      category := skill.category
      importance := roundTo 2 (min (max importance 0.1) 1.0)
      keywords := skill.keywords.getD [] })

/-- Embedding of `SkillParser.parse`, with the outcome of each extraction
source passed in. -/
def parse (rule_based spacy llm : List SkillDict) (job_description : Str) :
    List SkillTag :=
  let all_skills := merge_skills [rule_based, spacy, llm]
  let scored_skills := score_skills all_skills job_description
  scored_skills.insertionSort (fun a b => b.importance ≤ a.importance)

/-- The importance the claim assigns to a skill name in a job description. -/
def claimed_importance (skill_name : Str) (job_description : Str) : ℚ :=
  let text_lower := pyLower job_description
  let freq_score : ℚ := min ((countOcc (pyLower skill_name) text_lower : ℚ) / 5) 1.0
  let pos_score : ℚ :=
    match findSub (pyLower skill_name) text_lower with
    | some first_pos => 1 - ((first_pos : ℚ) / (text_lower.length : ℚ))
    | none => 0.5
  roundTo 2 (min (max ((freq_score * 0.6) + (pos_score * 0.4)) 0.1) 1.0)

end skill_parsing

/-- **C5**: every skill returned by `SkillParser.parse` carries the claimed
importance — `0.6 × min(count/5, 1) + 0.4 × position_score` (position score
`1 − first_offset/length` when the lower-cased name occurs verbatim in the
lower-cased description, else 0.5), clamped to `[0.1, 1.0]` and rounded to
2 decimals — and the returned list is sorted by importance descending. -/
theorem C5_skill_scoring (rule_based spacy llm : List skill_parsing.SkillDict)
    (jd : Str) :
    (∀ tag ∈ skill_parsing.parse rule_based spacy llm jd,
      tag.importance = skill_parsing.claimed_importance tag.skill jd) ∧
    List.Sorted (fun a b => b.importance ≤ a.importance)
      (skill_parsing.parse rule_based spacy llm jd) := by
  constructor
  · intro tag htag
    rw [skill_parsing.parse, List.mem_insertionSort] at htag
    rw [skill_parsing.score_skills] at htag
    obtain ⟨d, _, hd⟩ := List.mem_map.mp htag
    rw [← hd]
    rfl
  · haveI : IsTotal skill_parsing.SkillTag (fun a b => b.importance ≤ a.importance) :=
      ⟨fun a b => (le_total b.importance a.importance)⟩
    haveI : IsTrans skill_parsing.SkillTag (fun a b => b.importance ≤ a.importance) :=
      ⟨fun _ _ _ h1 h2 => le_trans h2 h1⟩
    exact List.sorted_insertionSort _ _

/-- **C5** witness: the scoring equation read off a concrete parse of a
one-skill extraction over a small job description. -/
theorem C5_skill_scoring_witness :
    ∀ tag ∈ skill_parsing.parse
        [{ skill := "python".data, category := .programming, source := "pattern" }] [] []
        "We use Python daily".data,
      tag.importance = skill_parsing.claimed_importance tag.skill "We use Python daily".data :=
  (C5_skill_scoring
    [{ skill := "python".data, category := .programming, source := "pattern" }] [] []
    "We use Python daily".data).1

/-! ## Speech streaming
(`backend/services/speech_service/streaming.py`)

`SpeechStreamingHandler._finalize_session`: timestamps are modelled as
naturals, audio chunks as byte lists, and the Whisper / analyzer calls as
explicit parameters — `transcribe` is the outcome of the pydub + Whisper
attempt (`none` = the exception branch), and `analyze` the outcome of the
`analyze_speech` / `analyze_language` pair (`none` = its exception branch,
value type `μ`). -/

namespace streaming

structure TranscriptionResult where
  text : Str
  duration_seconds : ℚ
  confidence : ℚ
  word_count : ℕ
  segments : List Str

/-- The dict stored by the failure branches of transcript finalisation. -/
def emptyTranscription : TranscriptionResult :=
  { text := [], duration_seconds := 0, confidence := 0, word_count := 0, segments := [] }

structure QuestionSegment where
  question_id : Str
  question_text : Str
  started_at : ℕ
  ended_at : Option ℕ := none
  audio_chunks : List (List ℕ) := []
  partial_transcripts : List Str := []
  final_transcript : Str := []
  transcription_result : Option TranscriptionResult := none
  chunk_count : ℕ := 0

structure StreamingSession where
  session_id : Str
  started_at : ℕ
  current_question : Option QuestionSegment := none
  completed_questions : List QuestionSegment := []
  total_audio_bytes : ℕ := 0
  total_chunk_count : ℕ := 0
  is_active : Bool := true
  last_activity : ℕ

/-- One per-question entry of the persisted record. -/
structure QuestionData (μ : Type) where
  question_id : Str
  question_text : Str
  started_at : ℕ
  ended_at : Option ℕ
  transcript : Str
  metrics : Option μ
  chunk_count : ℕ

/-- The record passed to `session_store.save_session`. -/
structure SessionData (μ : Type) where
  session_id : Str
  started_at : ℕ
  ended_at : ℕ
  questions : List (QuestionData μ)
  full_transcript : Str
  total_questions : ℕ
  total_audio_bytes : ℕ
  total_chunks : ℕ

/-- Python `str.split()` (split on whitespace runs, dropping empties). -/
def pySplitWsAux : Str → Str → List Str
  | [], acc => if acc.isEmpty then [] else [acc.reverse]
  | c :: rest, acc =>
    if pyIsSpace c then
      if acc.isEmpty then pySplitWsAux rest []
      else acc.reverse :: pySplitWsAux rest []
    else pySplitWsAux rest (c :: acc)

/-- Python `str.split()`. -/
def pySplitWs (s : Str) : List Str := pySplitWsAux s []

/-- The quick-finalize of the still-open question inside
`_finalize_session`: stamp `ended_at`, and transcribe its audio when any
was collected (empty transcript on failure). -/
def finalizeCurrent (transcribe : List ℕ → Option TranscriptionResult)
    (now : ℕ) (q : QuestionSegment) : QuestionSegment :=
  if q.audio_chunks.isEmpty then { q with ended_at := some now }
  else
    match transcribe q.audio_chunks.flatten with
    | some result =>
      { q with ended_at := some now, final_transcript := result.text,
               transcription_result := some result }
    | none =>
      { q with ended_at := some now, final_transcript := [],
               transcription_result := some emptyTranscription }

/-- The `transcription` dict used for a completed question
(`q.transcription_result or {...}`). -/
def transcriptionView (q : QuestionSegment) : TranscriptionResult :=
  match q.transcription_result with
  | some t => t
  | none =>
    { text := q.final_transcript
      duration_seconds :=
        match q.ended_at with
        | some e => ((e - q.started_at : ℕ) : ℚ)
        | none => 0
      word_count := (pySplitWs q.final_transcript).length
      confidence := 0
      segments := [] }

/-- One entry of `questions_data` (the two branches only differ in whether
the analyzer call succeeded, which `analyze` reports). -/
def buildQuestionData {μ : Type}
    (analyze : TranscriptionResult → Str → Option μ) (q : QuestionSegment) :
    QuestionData μ :=
  { question_id := q.question_id
    question_text := q.question_text
    started_at := q.started_at
    ended_at := q.ended_at
    transcript := q.final_transcript
    metrics := analyze (transcriptionView q) q.final_transcript
    chunk_count := q.chunk_count }

/-- Embedding of `SpeechStreamingHandler._finalize_session`: note it appends
the still-open question to `completed_questions` without clearing
`current_question`. -/
def finalize_session {μ : Type} (transcribe : List ℕ → Option TranscriptionResult)
    (analyze : TranscriptionResult → Str → Option μ) (now : ℕ)
    (s : StreamingSession) : StreamingSession × SessionData μ :=
  let s1 :=
    match s.current_question with
    | none => s
    | some q =>
      let q1 := finalizeCurrent transcribe now q
      { s with
          current_question := some q1
          completed_questions := s.completed_questions ++ [q1] }
  let questions_data := s1.completed_questions.map (buildQuestionData analyze)
  let full_transcript :=
    List.intercalate [' '] (s1.completed_questions.map (·.final_transcript))
  (s1,
   { session_id := s1.session_id
     started_at := s1.started_at
     ended_at := now
     questions := questions_data
     full_transcript := full_transcript
     total_questions := s1.completed_questions.length
     total_audio_bytes := s1.total_audio_bytes
     total_chunks := s1.total_chunk_count })

/-- The `end_session` branch of `_handle_control_message`: deactivate, then
finalize. -/
def handle_end_session {μ : Type} (transcribe : List ℕ → Option TranscriptionResult)
    (analyze : TranscriptionResult → Str → Option μ) (now : ℕ)
    (s : StreamingSession) : StreamingSession × SessionData μ :=
  finalize_session transcribe analyze now { s with is_active := false }

theorem finalizeCurrent_question_id (transcribe : List ℕ → Option TranscriptionResult)
    (now : ℕ) (q : QuestionSegment) :
    (finalizeCurrent transcribe now q).question_id = q.question_id := by
  unfold finalizeCurrent
  split
  · rfl
  · split <;> rfl

end streaming

/-- **C9**: `_finalize_session` does not clear `current_question`, so an
`end_session` control message followed by the disconnect-path finalization
appends the open segment to `completed_questions` twice, and the record
persisted by the second finalization lists that segment's id twice among
its per-question entries and counts it twice in `total_questions`. -/
theorem C9_double_finalize {μ : Type}
    (transcribe : List ℕ → Option streaming.TranscriptionResult)
    (analyze : streaming.TranscriptionResult → Str → Option μ)
    (t1 t2 : ℕ) (s : streaming.StreamingSession) (q : streaming.QuestionSegment)
    (h : s.current_question = some q) :
    ((streaming.handle_end_session transcribe analyze t1 s).1.current_question ≠ none) ∧
    ((streaming.finalize_session transcribe analyze t2
        (streaming.handle_end_session transcribe analyze t1 s).1).1.completed_questions.length
      = s.completed_questions.length + 2) ∧
    ((streaming.finalize_session transcribe analyze t2
        (streaming.handle_end_session transcribe analyze t1 s).1).2.total_questions
      = s.completed_questions.length + 2) ∧
    ((streaming.finalize_session transcribe analyze t2
        (streaming.handle_end_session transcribe analyze t1 s).1).2.questions.map
          (fun d => d.question_id)
      = s.completed_questions.map (fun c => c.question_id) ++
          [q.question_id, q.question_id]) := by
  unfold streaming.handle_end_session streaming.finalize_session
  rw [h]
  simp only [List.map_append, List.length_append, List.map_map, List.map_cons, List.map_nil]
  refine ⟨by simp, by simp, by simp, ?_⟩
  simp [Function.comp, streaming.buildQuestionData,
    streaming.finalizeCurrent_question_id]

/-- The concrete open segment for the C9 witness. -/
def c9Segment : streaming.QuestionSegment :=
  { question_id := "q1".data, question_text := "Q?".data, started_at := 1 }

/-- The concrete session with one open question for the C9 witness. -/
def c9Session : streaming.StreamingSession :=
  { session_id := "s1".data, started_at := 0, last_activity := 3,
    current_question := some c9Segment }

/-- **C9** witness: the double finalization at a concrete session with one
open question and no previously completed ones. -/
theorem C9_double_finalize_witness :
    ((streaming.finalize_session (fun _ => none)
        (fun (_ : streaming.TranscriptionResult) (_ : Str) => (none : Option Unit)) 7
        (streaming.handle_end_session (fun _ => none)
          (fun (_ : streaming.TranscriptionResult) (_ : Str) => (none : Option Unit)) 5
          c9Session).1).2.questions.map (fun d => d.question_id))
      = c9Session.completed_questions.map (fun c => c.question_id) ++
          [c9Segment.question_id, c9Segment.question_id] :=
  (C9_double_finalize (fun _ => none)
    (fun (_ : streaming.TranscriptionResult) (_ : Str) => (none : Option Unit)) 5 7
    c9Session c9Segment rfl).2.2.2

/-! ## Rubric scorer
(`backend/services/evaluation_service/rubric_scorer.py`)

The outcome of `_evaluate_with_llm` — the parsed JSON dict, in which any of
the four category keys may be absent, or the hard-coded default dict on any
failure — is passed to `evaluate` as the explicit `llm_scores`.  The number
rendering inside Python f-strings is abstracted by `pyRepr`; no claim
depends on the rendered text. -/

/-- Abstract rendering of a number interpolated into an f-string. -/
def pyRepr (q : ℚ) : String := toString q

namespace rubric_scorer

structure Category where
  name : String
  weight : ℚ
  description : String
  source : String

/-- The fixed rubric table `RUBRIC_CATEGORIES`. -/
def RUBRIC_CATEGORIES : List (String × Category) :=
  [("technical_correctness",
    ⟨"Technical Correctness", 0.20,
     "Accuracy of technical concepts, code, and solutions", "llm_evaluation"⟩),
   ("problem_solving",
    ⟨"Problem-Solving Approach", 0.15,
     "Methodology, structure, and logical reasoning", "llm_evaluation"⟩),
   ("system_design",
    ⟨"System Design Quality", 0.15,
     "Architecture decisions, scalability, trade-offs", "llm_evaluation"⟩),
   ("communication",
    ⟨"Communication Clarity", 0.12,
     "Clarity, structure, and effectiveness of explanation", "language_metrics"⟩),
   ("grammar_vocabulary",
    ⟨"Grammar & Vocabulary", 0.08,
     "Language correctness and professional vocabulary", "language_metrics"⟩),
   ("confidence_pacing",
    ⟨"Confidence & Pacing", 0.10,
     "Speaking confidence, pace, and filler word usage", "speech_metrics"⟩),
   ("body_language",
    ⟨"Body Language Signals", 0.08,
     "Eye contact, posture, gestures, facial expressions", "body_language_metrics"⟩),
   ("time_utilization",
    ⟨"Time Utilization", 0.07,
     "Effective use of allotted time", "timing_metrics"⟩),
   ("claim_consistency",
    ⟨"Claim Consistency", 0.05,
     "Factual accuracy and consistency of claims", "hallucination_check"⟩)]

/-- `self.categories[key]["name"]`. -/
def catName (key : String) : String :=
  ((RUBRIC_CATEGORIES.lookup key).map (·.name)).getD ""

/-- `self.categories[key]["weight"]`. -/
def catWeight (key : String) : ℚ :=
  ((RUBRIC_CATEGORIES.lookup key).map (·.weight)).getD 0

structure RubricScore where
  category : String
  category_name : String
  score : ℚ
  weight : ℚ
  feedback : String
  evidence : List String := []

structure EvaluationResult where
  session_id : String
  question_id : String
  rubric_scores : List RubricScore
  overall_score : ℚ
  weighted_score : ℚ
  strengths : List String
  weaknesses : List String
  confidence_index : ℚ
  pass_threshold : Bool
  excellence_threshold : Bool

/-- One category entry of the dict returned by `_evaluate_with_llm`. -/
structure LLMCategoryEntry where
  score : ℚ
  feedback : String
  evidence : List String := []

/-- The dict returned by `_evaluate_with_llm`: any key may be absent when
the LLM returned a JSON object omitting it. -/
structure LLMScores where
  technical_correctness : Option LLMCategoryEntry := none
  problem_solving : Option LLMCategoryEntry := none
  system_design : Option LLMCategoryEntry := none
  claim_consistency : Option LLMCategoryEntry := none

/-- The default dict `_evaluate_with_llm` returns on any failure. -/
def defaultLLMScores : LLMScores :=
  { technical_correctness := some ⟨3.0, "Unable to evaluate", []⟩
    problem_solving := some ⟨3.0, "Unable to evaluate", []⟩
    system_design := some ⟨3.0, "Unable to evaluate", []⟩
    claim_consistency := some ⟨4.0, "Unable to verify claims", []⟩ }

structure LanguageMetrics where
  clarity_score : Option ℚ := none
  readability_flesch : Option ℚ := none
  avg_sentence_length : Option ℚ := none
  grammar_score : Option ℚ := none
  vocabulary_level : Option String := none
  unique_word_ratio : Option ℚ := none

structure SpeechMetrics where
  words_per_minute : Option ℚ := none
  filler_word_percentage : Option ℚ := none
  pause_count : Option ℚ := none
  longest_pause_ms : Option ℚ := none
  speaking_rate_category : Option String := none

structure BodyMetrics where
  eye_contact_percentage : Option ℚ := none
  posture_score : Option ℚ := none
  gesture_frequency : Option ℚ := none

structure TimingMetrics where
  time_taken_seconds : Option ℚ := none
  expected_time_seconds : Option ℚ := none

/-- Embedding of `RubricScorer._score_communication`. -/
def score_communication (language_metrics : Option LanguageMetrics) : RubricScore :=
  match language_metrics with
  | none =>
    { category := "communication", category_name := catName "communication"
      score := 3.0, weight := catWeight "communication"
      feedback := "No language metrics available", evidence := [] }
  | some m =>
    let clarity := m.clarity_score.getD 3.0
    let readability := m.readability_flesch.getD 50
    let avg_sentence := m.avg_sentence_length.getD 15
    let readability_factor := min (readability / 20) 5
    let sentence_factor : ℚ := if 10 ≤ avg_sentence ∧ avg_sentence ≤ 20 then 5.0 else 3.0
    let score := (clarity * 0.5) + (readability_factor * 0.3) + (sentence_factor * 0.2)
    let score := min (max score 0) 5
    let feedback_parts :=
      (if 4 ≤ clarity then ["Clear and well-structured explanations"]
       else if clarity < 3 then ["Could improve clarity of explanations"] else []) ++
      (if 60 ≤ readability then ["Good readability level"]
       else if readability < 40 then ["Consider simplifying language"] else [])
    { category := "communication", category_name := catName "communication"
      score := roundTo 1 score, weight := catWeight "communication"
      feedback := if feedback_parts.isEmpty then "Adequate communication"
        else String.intercalate ". " feedback_parts
      evidence := ["Clarity score: " ++ pyRepr clarity ++ "/5",
        "Readability: " ++ pyRepr readability] }

/-- Embedding of `RubricScorer._score_grammar`. -/
def score_grammar (language_metrics : Option LanguageMetrics) : RubricScore :=
  match language_metrics with
  | none =>
    { category := "grammar_vocabulary", category_name := catName "grammar_vocabulary"
      score := 3.0, weight := catWeight "grammar_vocabulary"
      feedback := "No language metrics available", evidence := [] }
  | some m =>
    let grammar_score := m.grammar_score.getD 3.0
    let vocab_level := m.vocabulary_level.getD "intermediate"
    let unique_ratio := m.unique_word_ratio.getD 0.5
    let vocab_bonus : ℚ :=
      if vocab_level = "basic" then 0
      else if vocab_level = "intermediate" then 0.3
      else if vocab_level = "advanced" then 0.5
      else 0
    let score := min (max (grammar_score + vocab_bonus) 0) 5
    let feedback := "Grammar score: " ++ pyRepr grammar_score ++ "/5. Vocabulary level: " ++
      vocab_level ++ "." ++ (if 0.6 < unique_ratio then " Good vocabulary diversity." else "")
    { category := "grammar_vocabulary", category_name := catName "grammar_vocabulary"
      score := roundTo 1 score, weight := catWeight "grammar_vocabulary"
      feedback := feedback
      evidence := ["Unique word ratio: " ++ pyRepr unique_ratio] }

/-- Embedding of `RubricScorer._score_confidence`. -/
def score_confidence (speech_metrics : Option SpeechMetrics) : RubricScore :=
  match speech_metrics with
  | none =>
    { category := "confidence_pacing", category_name := catName "confidence_pacing"
      score := 3.0, weight := catWeight "confidence_pacing"
      feedback := "No speech metrics available", evidence := [] }
  | some m =>
    let wpm := m.words_per_minute.getD 130
    let filler_pct := m.filler_word_percentage.getD 5
    let longest_pause := m.longest_pause_ms.getD 1000
    let rate_category := m.speaking_rate_category.getD "normal"
    let wpm_score : ℚ :=
      if 120 ≤ wpm ∧ wpm ≤ 160 then 5.0
      else if 100 ≤ wpm ∧ wpm ≤ 180 then 4.0
      else if 80 ≤ wpm ∧ wpm ≤ 200 then 3.0
      else 2.0
    let filler_penalty := min (filler_pct / 2) 2
    let pause_penalty : ℚ :=
      if 3000 < longest_pause then 1.0
      else if 2000 < longest_pause then 0.5
      else 0
    let score := min (max (wpm_score - filler_penalty - pause_penalty) 0) 5
    let feedback_parts :=
      [if rate_category = "normal" then "Good speaking pace"
       else if rate_category = "fast" then "Consider slowing down slightly"
       else "Could speak with more energy"] ++
      (if filler_pct < 3 then ["Minimal filler words"]
       else if 5 < filler_pct then
         ["Reduce filler words (" ++ pyRepr filler_pct ++ "%)"]
       else [])
    { category := "confidence_pacing", category_name := catName "confidence_pacing"
      score := roundTo 1 score, weight := catWeight "confidence_pacing"
      feedback := String.intercalate ". " feedback_parts
      evidence := ["WPM: " ++ pyRepr wpm, "Filler words: " ++ pyRepr filler_pct ++ "%",
        "Speaking rate: " ++ rate_category] }

/-- Embedding of `RubricScorer._score_body_language`. -/
def score_body_language (body_metrics : Option BodyMetrics) : RubricScore :=
  match body_metrics with
  | none =>
    { category := "body_language", category_name := catName "body_language"
      score := 3.0, weight := catWeight "body_language"
      feedback := "Body language analysis not available", evidence := [] }
  | some m =>
    let eye_contact := m.eye_contact_percentage.getD 50
    let posture_score := m.posture_score.getD 3.0
    let gesture_freq := m.gesture_frequency.getD 5
    let eye_score : ℚ :=
      if 60 ≤ eye_contact ∧ eye_contact ≤ 80 then 5.0
      else if 40 ≤ eye_contact ∧ eye_contact ≤ 90 then 4.0
      else if 20 ≤ eye_contact then 3.0
      else 2.0
    let score := (eye_score * 0.4) + (posture_score * 0.4) + ((min (gesture_freq / 2) 5) * 0.2)
    let score := min (max score 0) 5
    let feedback_parts :=
      [if 60 ≤ eye_contact then "Good eye contact"
       else "Maintain more eye contact with camera"] ++
      (if 4 ≤ posture_score then ["Professional posture"]
       else if posture_score < 3 then ["Work on maintaining steady posture"] else [])
    { category := "body_language", category_name := catName "body_language"
      score := roundTo 1 score, weight := catWeight "body_language"
      feedback := String.intercalate ". " feedback_parts
      evidence := ["Eye contact: " ++ pyRepr eye_contact ++ "%",
        "Posture score: " ++ pyRepr posture_score ++ "/5"] }

/-- Embedding of `RubricScorer._score_time_utilization`. -/
def score_time_utilization (timing_metrics : Option TimingMetrics) : RubricScore :=
  match timing_metrics with
  | none =>
    { category := "time_utilization", category_name := catName "time_utilization"
      score := 3.5, weight := catWeight "time_utilization"
      feedback := "Timing metrics not available", evidence := [] }
  | some m =>
    let time_taken := m.time_taken_seconds.getD 0
    let expected_time := m.expected_time_seconds.getD 300
    if expected_time = 0 then
      { category := "time_utilization", category_name := catName "time_utilization"
        score := 3.5, weight := catWeight "time_utilization"
        feedback := "No expected time specified", evidence := [] }
    else
      let ratio := time_taken / expected_time
      let sf : ℚ × String :=
        if 0.8 ≤ ratio ∧ ratio ≤ 1.0 then (5.0, "Excellent time management")
        else if 0.6 ≤ ratio ∧ ratio ≤ 1.2 then (4.0, "Good time utilization")
        else if 0.4 ≤ ratio ∧ ratio ≤ 1.5 then (3.0, "Could improve time management")
        else if ratio < 0.4 then (2.0, "Response was too brief")
        else (2.0, "Exceeded expected time significantly")
      { category := "time_utilization", category_name := catName "time_utilization"
        score := sf.1, weight := catWeight "time_utilization"
        feedback := sf.2
        evidence := ["Time taken: " ++ pyRepr time_taken ++ "s",
          "Expected: " ++ pyRepr expected_time ++ "s",
          "Ratio: " ++ pyRepr ratio] }

/-- Embedding of `RubricScorer._identify_strengths_weaknesses` (Python's
stable descending sort modelled by `insertionSort` as in the skill parser). -/
def identify_strengths_weaknesses (rubric_scores : List RubricScore) :
    List String × List String :=
  let sorted_scores := rubric_scores.insertionSort (fun a b => b.score ≤ a.score)
  let strengths := ((sorted_scores.take 3).filter (fun s => 4.0 ≤ s.score)).map
    (fun s => s.category_name ++ ": " ++ s.feedback)
  let weaknesses := ((sorted_scores.drop (sorted_scores.length - 3)).filter
      (fun s => s.score < 3.5)).map
    (fun s => s.category_name ++ ": " ++ s.feedback)
  (strengths, weaknesses)

/-- Python `statistics.variance` (sample variance). -/
def variance (l : List ℚ) : ℚ :=
  let mean := l.sum / (l.length : ℚ)
  ((l.map (fun x => (x - mean) ^ 2)).sum) / ((l.length : ℚ) - 1)

/-- Embedding of `RubricScorer._calculate_confidence_index`. -/
def calculate_confidence_index (rubric_scores : List RubricScore)
    (speech_metrics : Option SpeechMetrics) (language_metrics : Option LanguageMetrics) : ℚ :=
  let scores := rubric_scores.map (·.score)
  if scores.isEmpty then 0.5
  else
    let consistency_factor : ℚ :=
      if 1 < scores.length then max 0 (1 - variance scores / 5) else 0.5
    let data_points : ℚ :=
      (if speech_metrics.isSome then 1 else 0) + (if language_metrics.isSome then 1 else 0)
    let completeness_factor := data_points / 2
    min (max ((consistency_factor * 0.6) + (completeness_factor * 0.4)) 0) 1

/-- The rubric scores contributed for one LLM category: one entry when the
key is present in `llm_scores`, none otherwise. -/
def llmCategoryScores (key : String) (entry : Option LLMCategoryEntry) : List RubricScore :=
  match entry with
  | some e =>
    [{ category := key, category_name := catName key, score := e.score,
       weight := catWeight key, feedback := e.feedback, evidence := e.evidence }]
  | none => []

/-- The `claim_consistency` score (always present, defaulted at 4.0). -/
def consistencyScore (llm_scores : LLMScores) : RubricScore :=
  { category := "claim_consistency", category_name := catName "claim_consistency"
    score := (llm_scores.claim_consistency.map (·.score)).getD 4.0
    weight := catWeight "claim_consistency"
    feedback := (llm_scores.claim_consistency.map (·.feedback)).getD
      "No major inconsistencies detected"
    evidence := [] }

/-- The `rubric_scores` list built by `RubricScorer.evaluate`. -/
def build_rubric_scores (speech_metrics : Option SpeechMetrics)
    (language_metrics : Option LanguageMetrics) (body_language_metrics : Option BodyMetrics)
    (timing_metrics : Option TimingMetrics) (llm_scores : LLMScores) : List RubricScore :=
  llmCategoryScores "technical_correctness" llm_scores.technical_correctness ++
  llmCategoryScores "problem_solving" llm_scores.problem_solving ++
  llmCategoryScores "system_design" llm_scores.system_design ++
  [score_communication language_metrics,
   score_grammar language_metrics,
   score_confidence speech_metrics,
   score_body_language body_language_metrics,
   score_time_utilization timing_metrics,
   consistencyScore llm_scores]

/-- Embedding of `RubricScorer.evaluate`, with the `_evaluate_with_llm`
outcome passed in as `llm_scores`. -/
def evaluate (session_id question_id _question_text _answer_text : String)
    (speech_metrics : Option SpeechMetrics) (language_metrics : Option LanguageMetrics)
    (body_language_metrics : Option BodyMetrics) (timing_metrics : Option TimingMetrics)
    (_interview_type : String) (llm_scores : LLMScores) : EvaluationResult :=
  let rubric_scores := build_rubric_scores speech_metrics language_metrics
    body_language_metrics timing_metrics llm_scores
  let overall_score := (rubric_scores.map (·.score)).sum / (rubric_scores.length : ℚ)
  let weighted_score := (rubric_scores.map (fun s => s.score * s.weight)).sum
  let sw := identify_strengths_weaknesses rubric_scores
  let confidence_index := calculate_confidence_index rubric_scores speech_metrics
    language_metrics
  { session_id := session_id
    question_id := question_id
    rubric_scores := rubric_scores
    overall_score := roundTo 2 overall_score
    weighted_score := roundTo 2 weighted_score
    strengths := sw.1
    weaknesses := sw.2
    confidence_index := roundTo 2 confidence_index
    pass_threshold := decide ((3.0 : ℚ) ≤ weighted_score)
    excellence_threshold := decide ((4.5 : ℚ) ≤ weighted_score) }

end rubric_scorer

namespace rubric_scorer

theorem catWeight_technical : catWeight "technical_correctness" = 0.20 := rfl

theorem catWeight_problem_solving : catWeight "problem_solving" = 0.15 := rfl

theorem catWeight_system_design : catWeight "system_design" = 0.15 := rfl

theorem catWeight_communication : catWeight "communication" = 0.12 := rfl

theorem catWeight_grammar : catWeight "grammar_vocabulary" = 0.08 := rfl

theorem catWeight_confidence : catWeight "confidence_pacing" = 0.10 := rfl

theorem catWeight_body : catWeight "body_language" = 0.08 := rfl

theorem catWeight_time : catWeight "time_utilization" = 0.07 := rfl

theorem catWeight_consistency : catWeight "claim_consistency" = 0.05 := rfl

theorem score_communication_weight (m : Option LanguageMetrics) :
    (score_communication m).weight = catWeight "communication" := by
  cases m <;> rfl

theorem score_grammar_weight (m : Option LanguageMetrics) :
    (score_grammar m).weight = catWeight "grammar_vocabulary" := by
  cases m <;> rfl

theorem score_confidence_weight (m : Option SpeechMetrics) :
    (score_confidence m).weight = catWeight "confidence_pacing" := by
  cases m <;> rfl

theorem score_body_language_weight (m : Option BodyMetrics) :
    (score_body_language m).weight = catWeight "body_language" := by
  cases m <;> rfl

theorem score_time_utilization_weight (m : Option TimingMetrics) :
    (score_time_utilization m).weight = catWeight "time_utilization" := by
  cases m with
  | none => rfl
  | some mm =>
    simp only [score_time_utilization]
    split <;> rfl

theorem score_communication_category (m : Option LanguageMetrics) :
    (score_communication m).category = "communication" := by
  cases m <;> rfl

theorem score_grammar_category (m : Option LanguageMetrics) :
    (score_grammar m).category = "grammar_vocabulary" := by
  cases m <;> rfl

theorem score_confidence_category (m : Option SpeechMetrics) :
    (score_confidence m).category = "confidence_pacing" := by
  cases m <;> rfl

theorem score_body_language_category (m : Option BodyMetrics) :
    (score_body_language m).category = "body_language" := by
  cases m <;> rfl

theorem score_time_utilization_category (m : Option TimingMetrics) :
    (score_time_utilization m).category = "time_utilization" := by
  cases m with
  | none => rfl
  | some mm =>
    simp only [score_time_utilization]
    split <;> rfl

theorem mem_llmCategoryScores {key : String} {e : Option LLMCategoryEntry}
    {s : RubricScore} (h : s ∈ llmCategoryScores key e) : s.weight = catWeight key := by
  cases e with
  | none => simp [llmCategoryScores] at h
  | some x =>
    simp only [llmCategoryScores, List.mem_singleton] at h
    rw [h]

theorem llmCategoryScores_weightsum (key : String) (e : Option LLMCategoryEntry) :
    ((llmCategoryScores key e).map (fun s => s.weight)).sum =
      if e.isSome then catWeight key else 0 := by
  cases e <;> simp [llmCategoryScores]

theorem weighted_sum_nonneg (l : List RubricScore)
    (hs : ∀ s ∈ l, 0 ≤ s.score) (hw : ∀ s ∈ l, 0 ≤ s.weight) :
    0 ≤ (l.map (fun s => s.score * s.weight)).sum := by
  induction l with
  | nil => simp
  | cons a l ih =>
    simp only [List.map_cons, List.sum_cons]
    have h1 : 0 ≤ a.score * a.weight :=
      mul_nonneg (hs a (by simp)) (hw a (by simp))
    have h2 := ih (fun s hsm => hs s (by simp [hsm])) (fun s hsm => hw s (by simp [hsm]))
    linarith

theorem weighted_sum_le (l : List RubricScore)
    (hs : ∀ s ∈ l, s.score ≤ 5) (hw : ∀ s ∈ l, 0 ≤ s.weight) :
    (l.map (fun s => s.score * s.weight)).sum ≤ 5 * (l.map (fun s => s.weight)).sum := by
  induction l with
  | nil => simp
  | cons a l ih =>
    simp only [List.map_cons, List.sum_cons]
    have h1 : a.score * a.weight ≤ 5 * a.weight :=
      mul_le_mul_of_nonneg_right (hs a (by simp)) (hw a (by simp))
    have h2 := ih (fun s hsm => hs s (by simp [hsm])) (fun s hsm => hw s (by simp [hsm]))
    linarith

theorem build_weights_nonneg (sm : Option SpeechMetrics) (lm : Option LanguageMetrics)
    (bm : Option BodyMetrics) (tm : Option TimingMetrics) (llm : LLMScores) :
    ∀ s ∈ build_rubric_scores sm lm bm tm llm, 0 ≤ s.weight := by
  intro s hs
  unfold build_rubric_scores at hs
  simp only [List.mem_append, List.mem_cons, List.not_mem_nil, or_false] at hs
  rcases hs with ((h | h) | h) | h | h | h | h | h | h
  · rw [mem_llmCategoryScores h, catWeight_technical]; norm_num
  · rw [mem_llmCategoryScores h, catWeight_problem_solving]; norm_num
  · rw [mem_llmCategoryScores h, catWeight_system_design]; norm_num
  · rw [h, score_communication_weight, catWeight_communication]; norm_num
  · rw [h, score_grammar_weight, catWeight_grammar]; norm_num
  · rw [h, score_confidence_weight, catWeight_confidence]; norm_num
  · rw [h, score_body_language_weight, catWeight_body]; norm_num
  · rw [h, score_time_utilization_weight, catWeight_time]; norm_num
  · rw [h]; show (0:ℚ) ≤ catWeight "claim_consistency"
    rw [catWeight_consistency]; norm_num

theorem build_weights_sum_le_one (sm : Option SpeechMetrics) (lm : Option LanguageMetrics)
    (bm : Option BodyMetrics) (tm : Option TimingMetrics) (llm : LLMScores) :
    ((build_rubric_scores sm lm bm tm llm).map (fun s => s.weight)).sum ≤ 1 := by
  unfold build_rubric_scores
  simp only [List.map_append, List.sum_append, List.map_cons, List.sum_cons,
    List.map_nil, List.sum_nil, llmCategoryScores_weightsum,
    score_communication_weight, score_grammar_weight, score_confidence_weight,
    score_body_language_weight, score_time_utilization_weight]
  have h1 : (if llm.technical_correctness.isSome then catWeight "technical_correctness"
      else 0) ≤ 0.20 := by
    rw [catWeight_technical]; split <;> norm_num
  have h2 : (if llm.problem_solving.isSome then catWeight "problem_solving"
      else 0) ≤ 0.15 := by
    rw [catWeight_problem_solving]; split <;> norm_num
  have h3 : (if llm.system_design.isSome then catWeight "system_design"
      else 0) ≤ 0.15 := by
    rw [catWeight_system_design]; split <;> norm_num
  rw [catWeight_communication, catWeight_grammar, catWeight_confidence,
    catWeight_body, catWeight_time]
  have h4 : (consistencyScore llm).weight = 0.05 := catWeight_consistency
  rw [h4]
  linarith [h1, h2, h3]

theorem evaluate_rubric_scores (sid qid qt ans : String) (sm : Option SpeechMetrics)
    (lm : Option LanguageMetrics) (bm : Option BodyMetrics) (tm : Option TimingMetrics)
    (it : String) (llm : LLMScores) :
    (evaluate sid qid qt ans sm lm bm tm it llm).rubric_scores =
      build_rubric_scores sm lm bm tm llm := rfl

theorem evaluate_weighted_score (sid qid qt ans : String) (sm : Option SpeechMetrics)
    (lm : Option LanguageMetrics) (bm : Option BodyMetrics) (tm : Option TimingMetrics)
    (it : String) (llm : LLMScores) :
    (evaluate sid qid qt ans sm lm bm tm it llm).weighted_score =
      roundTo 2 (((build_rubric_scores sm lm bm tm llm).map
        (fun s => s.score * s.weight)).sum) := rfl

theorem evaluate_pass_threshold (sid qid qt ans : String) (sm : Option SpeechMetrics)
    (lm : Option LanguageMetrics) (bm : Option BodyMetrics) (tm : Option TimingMetrics)
    (it : String) (llm : LLMScores) :
    (evaluate sid qid qt ans sm lm bm tm it llm).pass_threshold =
      decide ((3.0 : ℚ) ≤ ((build_rubric_scores sm lm bm tm llm).map
        (fun s => s.score * s.weight)).sum) := rfl

theorem evaluate_excellence_threshold (sid qid qt ans : String) (sm : Option SpeechMetrics)
    (lm : Option LanguageMetrics) (bm : Option BodyMetrics) (tm : Option TimingMetrics)
    (it : String) (llm : LLMScores) :
    (evaluate sid qid qt ans sm lm bm tm it llm).excellence_threshold =
      decide ((4.5 : ℚ) ≤ ((build_rubric_scores sm lm bm tm llm).map
        (fun s => s.score * s.weight)).sum) := rfl

theorem evaluate_overall_score (sid qid qt ans : String) (sm : Option SpeechMetrics)
    (lm : Option LanguageMetrics) (bm : Option BodyMetrics) (tm : Option TimingMetrics)
    (it : String) (llm : LLMScores) :
    (evaluate sid qid qt ans sm lm bm tm it llm).overall_score =
      roundTo 2 (((build_rubric_scores sm lm bm tm llm).map (fun s => s.score)).sum /
        ((build_rubric_scores sm lm bm tm llm).length : ℚ)) := rfl

end rubric_scorer

/-- **C1**: the 9 fixed rubric weights sum to exactly 1.00, and for every
`RubricScorer.evaluate` result whose category scores all lie in `[0,5]`,
the reported `weighted_score` lies in `[0,5]`, `pass_threshold` holds
exactly when the score-times-weight sum over the result's rubric scores is
at least 3.0, and `excellence_threshold` exactly when it is at least 4.5. -/
theorem C1_weights_and_thresholds (sid qid qt ans : String)
    (sm : Option rubric_scorer.SpeechMetrics) (lm : Option rubric_scorer.LanguageMetrics)
    (bm : Option rubric_scorer.BodyMetrics) (tm : Option rubric_scorer.TimingMetrics)
    (it : String) (llm : rubric_scorer.LLMScores)
    (hscores : ∀ s ∈ (rubric_scorer.evaluate sid qid qt ans sm lm bm tm it llm).rubric_scores,
      0 ≤ s.score ∧ s.score ≤ 5) :
    ((rubric_scorer.RUBRIC_CATEGORIES.map (fun kc => kc.2.weight)).sum = 1.00) ∧
    (0 ≤ (rubric_scorer.evaluate sid qid qt ans sm lm bm tm it llm).weighted_score ∧
      (rubric_scorer.evaluate sid qid qt ans sm lm bm tm it llm).weighted_score ≤ 5) ∧
    ((rubric_scorer.evaluate sid qid qt ans sm lm bm tm it llm).pass_threshold = true ↔
      (3.0 : ℚ) ≤ (((rubric_scorer.evaluate sid qid qt ans sm lm bm tm it llm).rubric_scores).map
        (fun s => s.score * s.weight)).sum) ∧
    ((rubric_scorer.evaluate sid qid qt ans sm lm bm tm it llm).excellence_threshold = true ↔
      (4.5 : ℚ) ≤ (((rubric_scorer.evaluate sid qid qt ans sm lm bm tm it llm).rubric_scores).map
        (fun s => s.score * s.weight)).sum) := by
  rw [rubric_scorer.evaluate_rubric_scores] at hscores
  have hw := rubric_scorer.build_weights_nonneg sm lm bm tm llm
  have hwsum := rubric_scorer.build_weights_sum_le_one sm lm bm tm llm
  have hnn : 0 ≤ ((rubric_scorer.build_rubric_scores sm lm bm tm llm).map
      (fun s => s.score * s.weight)).sum :=
    rubric_scorer.weighted_sum_nonneg _ (fun s hsm => (hscores s hsm).1) hw
  have hub : ((rubric_scorer.build_rubric_scores sm lm bm tm llm).map
      (fun s => s.score * s.weight)).sum ≤ 5 := by
    have h5 := rubric_scorer.weighted_sum_le (rubric_scorer.build_rubric_scores sm lm bm tm llm)
      (fun s hsm => (hscores s hsm).2) hw
    linarith
  refine ⟨by norm_num [rubric_scorer.RUBRIC_CATEGORIES], ⟨?_, ?_⟩, ?_, ?_⟩
  · rw [rubric_scorer.evaluate_weighted_score]
    exact le_roundTo ⟨0, by norm_num⟩ hnn
  · rw [rubric_scorer.evaluate_weighted_score]
    exact roundTo_le ⟨500, by norm_num⟩ hub
  · rw [rubric_scorer.evaluate_pass_threshold, rubric_scorer.evaluate_rubric_scores]
    exact decide_eq_true_iff
  · rw [rubric_scorer.evaluate_excellence_threshold, rubric_scorer.evaluate_rubric_scores]
    exact decide_eq_true_iff

/-- **C1** witness: the theorem at a concrete evaluation (no metrics, the
LLM-failure default scores), whose category scores are all in `[0,5]`. -/
theorem C1_weights_and_thresholds_witness :
    ((rubric_scorer.RUBRIC_CATEGORIES.map (fun kc => kc.2.weight)).sum = 1.00) ∧
    (0 ≤ (rubric_scorer.evaluate "s1" "q1" "Q" "A" none none none none "technical"
        rubric_scorer.defaultLLMScores).weighted_score ∧
      (rubric_scorer.evaluate "s1" "q1" "Q" "A" none none none none "technical"
        rubric_scorer.defaultLLMScores).weighted_score ≤ 5) ∧
    ((rubric_scorer.evaluate "s1" "q1" "Q" "A" none none none none "technical"
        rubric_scorer.defaultLLMScores).pass_threshold = true ↔
      (3.0 : ℚ) ≤ (((rubric_scorer.evaluate "s1" "q1" "Q" "A" none none none none "technical"
        rubric_scorer.defaultLLMScores).rubric_scores).map
          (fun s => s.score * s.weight)).sum) ∧
    ((rubric_scorer.evaluate "s1" "q1" "Q" "A" none none none none "technical"
        rubric_scorer.defaultLLMScores).excellence_threshold = true ↔
      (4.5 : ℚ) ≤ (((rubric_scorer.evaluate "s1" "q1" "Q" "A" none none none none "technical"
        rubric_scorer.defaultLLMScores).rubric_scores).map
          (fun s => s.score * s.weight)).sum) :=
  C1_weights_and_thresholds "s1" "q1" "Q" "A" none none none none "technical"
    rubric_scorer.defaultLLMScores (by
      rw [rubric_scorer.evaluate_rubric_scores]
      intro s hs
      simp only [rubric_scorer.build_rubric_scores, rubric_scorer.defaultLLMScores,
        rubric_scorer.llmCategoryScores, rubric_scorer.consistencyScore,
        rubric_scorer.score_communication, rubric_scorer.score_grammar,
        rubric_scorer.score_confidence, rubric_scorer.score_body_language,
        rubric_scorer.score_time_utilization, Option.map_some, Option.getD_some,
        List.mem_append, List.mem_cons, List.not_mem_nil, or_false] at hs
      rcases hs with ((rfl | rfl) | rfl) | rfl | rfl | rfl | rfl | rfl | rfl <;>
        norm_num)

/-- A parseable LLM JSON object that omits `problem_solving`. -/
def c2LLMScores : rubric_scorer.LLMScores :=
  { technical_correctness := some ⟨4.0, "solid", []⟩
    problem_solving := none
    system_design := some ⟨3.0, "adequate", []⟩
    claim_consistency := some ⟨4.0, "consistent", []⟩ }

/-- **C2** (counterexample): when the LLM returns a parseable JSON object
that omits `problem_solving`, the returned `EvaluationResult` carries only
8 rubric scores, not 9. -/
theorem C2_counterexample :
    (rubric_scorer.evaluate "s1" "q1" "Q" "A" none none none none "technical"
      c2LLMScores).rubric_scores.length = 8 ∧
    (rubric_scorer.evaluate "s1" "q1" "Q" "A" none none none none "technical"
      c2LLMScores).rubric_scores.length ≠ 9 := by
  constructor <;> decide

/-- **C2** (amended): whenever the `_evaluate_with_llm` outcome contains all
three of `technical_correctness`, `problem_solving` and `system_design` —
in particular whenever the LLM call failed and the built-in default dict is
used — the returned result has exactly 9 rubric scores, one per fixed
category in table order, and `overall_score` is the unweighted mean of
those 9 scores rounded to 2 decimals. -/
theorem C2_nine_scores (sid qid qt ans : String)
    (sm : Option rubric_scorer.SpeechMetrics) (lm : Option rubric_scorer.LanguageMetrics)
    (bm : Option rubric_scorer.BodyMetrics) (tm : Option rubric_scorer.TimingMetrics)
    (it : String) (llm : rubric_scorer.LLMScores)
    (e1 e2 e3 : rubric_scorer.LLMCategoryEntry)
    (h1 : llm.technical_correctness = some e1)
    (h2 : llm.problem_solving = some e2)
    (h3 : llm.system_design = some e3) :
    (rubric_scorer.evaluate sid qid qt ans sm lm bm tm it llm).rubric_scores.length = 9 ∧
    (rubric_scorer.evaluate sid qid qt ans sm lm bm tm it llm).rubric_scores.map
        (fun s => s.category) =
      ["technical_correctness", "problem_solving", "system_design", "communication",
       "grammar_vocabulary", "confidence_pacing", "body_language", "time_utilization",
       "claim_consistency"] ∧
    (rubric_scorer.evaluate sid qid qt ans sm lm bm tm it llm).overall_score =
      roundTo 2 ((((rubric_scorer.evaluate sid qid qt ans sm lm bm tm it
        llm).rubric_scores.map (fun s => s.score)).sum) / 9) := by
  have hb : rubric_scorer.build_rubric_scores sm lm bm tm llm =
      [{ category := "technical_correctness",
         category_name := rubric_scorer.catName "technical_correctness",
         score := e1.score, weight := rubric_scorer.catWeight "technical_correctness",
         feedback := e1.feedback, evidence := e1.evidence },
       { category := "problem_solving",
         category_name := rubric_scorer.catName "problem_solving",
         score := e2.score, weight := rubric_scorer.catWeight "problem_solving",
         feedback := e2.feedback, evidence := e2.evidence },
       { category := "system_design",
         category_name := rubric_scorer.catName "system_design",
         score := e3.score, weight := rubric_scorer.catWeight "system_design",
         feedback := e3.feedback, evidence := e3.evidence },
       rubric_scorer.score_communication lm,
       rubric_scorer.score_grammar lm,
       rubric_scorer.score_confidence sm,
       rubric_scorer.score_body_language bm,
       rubric_scorer.score_time_utilization tm,
       rubric_scorer.consistencyScore llm] := by
    unfold rubric_scorer.build_rubric_scores
    rw [h1, h2, h3]
    rfl
  refine ⟨?_, ?_, ?_⟩
  · rw [rubric_scorer.evaluate_rubric_scores, hb]
    rfl
  · rw [rubric_scorer.evaluate_rubric_scores, hb]
    simp [rubric_scorer.score_communication_category, rubric_scorer.score_grammar_category,
      rubric_scorer.score_confidence_category, rubric_scorer.score_body_language_category,
      rubric_scorer.score_time_utilization_category, rubric_scorer.consistencyScore]
  · rw [rubric_scorer.evaluate_overall_score, rubric_scorer.evaluate_rubric_scores, hb]
    norm_num

/-- **C2** witness: the amended statement at a concrete evaluation with the
LLM-failure default scores (all three keys present). -/
theorem C2_nine_scores_witness :
    (rubric_scorer.evaluate "s1" "q1" "Q" "A" none none none none "technical"
        rubric_scorer.defaultLLMScores).rubric_scores.length = 9 ∧
    (rubric_scorer.evaluate "s1" "q1" "Q" "A" none none none none "technical"
        rubric_scorer.defaultLLMScores).rubric_scores.map (fun s => s.category) =
      ["technical_correctness", "problem_solving", "system_design", "communication",
       "grammar_vocabulary", "confidence_pacing", "body_language", "time_utilization",
       "claim_consistency"] ∧
    (rubric_scorer.evaluate "s1" "q1" "Q" "A" none none none none "technical"
        rubric_scorer.defaultLLMScores).overall_score =
      roundTo 2 ((((rubric_scorer.evaluate "s1" "q1" "Q" "A" none none none none "technical"
        rubric_scorer.defaultLLMScores).rubric_scores.map (fun s => s.score)).sum) / 9) :=
  C2_nine_scores "s1" "q1" "Q" "A" none none none none "technical"
    rubric_scorer.defaultLLMScores ⟨3.0, "Unable to evaluate", []⟩
    ⟨3.0, "Unable to evaluate", []⟩ ⟨3.0, "Unable to evaluate", []⟩ rfl rfl rfl
